import Mathlib

/-!
# Verification of the `imx` image-metadata library

A shallow embedding of the `imx` Go library (format detection plus the five
structural decoders and the TIFF/EXIF directory decoder of the `formats`
package), with theorems settling the frozen claims about it.

Bytes are modelled as `Nat` values (< 256 in every real stream).  A byte
source (`bytes.Reader` in Go) is a list of bytes together with a read
position.  `Read` on a Go `bytes.Reader` returns an error only when the
position is at or past the end; otherwise it copies `min n remaining` bytes
into the freshly allocated (zero-filled) buffer and returns no error, so the
buffer's byte `i` is `data[pos+i]` when in range and `0` otherwise.
-/

namespace Imx

/-- Byte source state: the full underlying data and the current read offset.
Mirrors Go's `bytes.Reader` (`s []byte` plus index `i`). -/
structure St where
  data : List Nat
  pos : Nat
deriving Repr, DecidableEq

/-- The buffer contents produced by reading `n` bytes at `pos`: byte `i` is
`data[pos+i]`, or `0` where the copy stopped short (Go's fresh `make` buffer
is zero-filled and the code ignores the returned count). -/
def readBuf (data : List Nat) (pos : Nat) : Nat → List Nat
  | 0 => []
  | n + 1 => data.getD pos 0 :: readBuf data (pos + 1) n

/-- `Read` of `n` bytes: `none` models a returned error, which
`bytes.Reader.Read` produces exactly when the position is at or past the
end of the data (even for `n = 0`). -/
def goRead (n : Nat) (st : St) : Option (List Nat × St) :=
  if st.data.length ≤ st.pos then none
  else some (readBuf st.data st.pos n,
             { st with pos := st.pos + min n (st.data.length - st.pos) })

/-- A read whose error the Go code ignores while still using the (padded)
buffer: on error the fresh zero-filled buffer is left untouched. -/
def goReadPad (n : Nat) (st : St) : List Nat × St :=
  match goRead n st with
  | none => (List.replicate n 0, st)
  | some p => p

/-- `Seek(delta, io.SeekCurrent)` on a `bytes.Reader`: a negative target is
an error (the Go code ignores it, the position is unchanged); otherwise the
position becomes the target, possibly beyond the end of the data. -/
def seekCur (delta : Int) (st : St) : St :=
  let target : Int := (st.pos : Int) + delta
  if target < 0 then st else { st with pos := target.toNat }

/-- Little-endian 16-bit value of two bytes. -/
def le16 (b0 b1 : Nat) : Nat := b0 + 256 * b1

/-- Big-endian 16-bit value of two bytes. -/
def be16 (b0 b1 : Nat) : Nat := 256 * b0 + b1

/-- Little-endian 32-bit value of four bytes. -/
def le32 (b0 b1 b2 b3 : Nat) : Nat := b0 + 256 * b1 + 65536 * b2 + 16777216 * b3

/-- Big-endian 32-bit value of four bytes. -/
def be32 (b0 b1 b2 b3 : Nat) : Nat := 16777216 * b0 + 65536 * b1 + 256 * b2 + b3

/-- Reinterpret an unsigned 32-bit value as Go's `int32` (two's complement). -/
def i32 (v : Nat) : Int := if v < 2147483648 then (v : Int) else (v : Int) - 4294967296

/-- Reinterpret an unsigned 16-bit value as Go's `int16` (two's complement). -/
def i16 (v : Nat) : Int := if v < 32768 then (v : Int) else (v : Int) - 65536

/-- Values stored in the open `Additional` metadata map
(Go `map[string]interface{}`; only the value matters to the claims). -/
inductive AddValue where
  | n (v : Nat)
  | i (v : Int)
  | b (v : Bool)
  | s (v : String)
deriving Repr, DecidableEq

/-- Values stored in the `EXIF` map.  Go's `interface{}` nil is `.null`;
rational values (Go `float64` quotients) are carried as exact rationals,
which agrees with the code on everything the claims touch. -/
inductive TagValue where
  | null
  | byte (v : Nat)
  | bytes (v : List Nat)
  | text (v : List Nat)
  | short (v : Nat)
  | shorts (v : List Nat)
  | long (v : Nat)
  | slong (v : Int)
  | longs (v : List Nat)
  | flt (v : Rat)
deriving Repr, DecidableEq

/-- Association-list model of a Go string-keyed map: assignment overwrites. -/
def mset {V : Type} (k : String) (v : V) (m : List (String × V)) : List (String × V) :=
  if m.any (fun p => p.1 = k)
  then m.map (fun p => if p.1 = k then (k, v) else p)
  else m ++ [(k, v)]

/-- Map lookup. -/
def mlookup {V : Type} (k : String) (m : List (String × V)) : Option V :=
  (m.find? (fun p => p.1 = k)).map (fun p => p.2)

/-- Merge `src` into `dst`, overwriting same-named keys
(Go's `for k, v := range src { dst[k] = v }`). -/
def mmerge {V : Type} (dst src : List (String × V)) : List (String × V) :=
  src.foldl (fun acc p => mset p.1 p.2 acc) dst

theorem find?_map_overwrite (k : String) {V : Type} (v : V) (m : List (String × V))
    (h : m.any (fun p => p.1 = k) = true) :
    List.find? (fun p => decide (p.1 = k))
      (m.map (fun p => if p.1 = k then (k, v) else p)) = some (k, v) := by
  induction m with
  | nil => simp at h
  | cons p t ih =>
    by_cases hp : p.1 = k
    · rw [List.map_cons, if_pos hp, List.find?_cons_of_pos _ (by simp)]
    · simp only [List.any_cons, Bool.or_eq_true, decide_eq_true_eq] at h
      rcases h with h | h
      · exact absurd h hp
      · rw [List.map_cons, if_neg hp, List.find?_cons_of_neg _ (by simpa using hp)]
        exact ih h

theorem find?_map_overwrite_ne (k k' : String) {V : Type} (v : V)
    (m : List (String × V)) (hne : k ≠ k') :
    List.find? (fun p => decide (p.1 = k))
      (m.map (fun p => if p.1 = k' then (k', v) else p)) =
    List.find? (fun p => decide (p.1 = k)) m := by
  induction m with
  | nil => rfl
  | cons p t ih =>
    by_cases hp : p.1 = k'
    · rw [List.map_cons, if_pos hp, List.find?_cons_of_neg _ (by simpa using Ne.symm hne),
        List.find?_cons_of_neg _ (by simp [hp, Ne.symm hne]), ih]
    · by_cases hk : p.1 = k
      · rw [List.map_cons, if_neg hp, List.find?_cons_of_pos _ (by simpa using hk),
          List.find?_cons_of_pos _ (by simpa using hk)]
      · rw [List.map_cons, if_neg hp, List.find?_cons_of_neg _ (by simpa using hk),
          List.find?_cons_of_neg _ (by simpa using hk), ih]

theorem mlookup_mset_self {V : Type} (k : String) (v : V) (m : List (String × V)) :
    mlookup k (mset k v m) = some v := by
  unfold mset mlookup
  split
  case isTrue h => rw [find?_map_overwrite k v m h]; rfl
  case isFalse h =>
    induction m with
    | nil => simp [List.find?]
    | cons p t ih =>
      simp only [List.any_cons, Bool.or_eq_true, decide_eq_true_eq, not_or] at h
      rw [List.cons_append, List.find?_cons_of_neg _ (by simpa using h.1)]
      exact ih h.2

theorem mlookup_mset_ne {V : Type} (k k' : String) (v : V) (m : List (String × V))
    (hne : k ≠ k') : mlookup k (mset k' v m) = mlookup k m := by
  unfold mset mlookup
  split
  · rw [find?_map_overwrite_ne k k' v m hne]
  case isFalse h =>
    induction m with
    | nil => simp [List.find?, Ne.symm hne]
    | cons p t ih =>
      simp only [List.any_cons, Bool.or_eq_true, decide_eq_true_eq, not_or] at h
      by_cases hk : p.1 = k
      · rw [List.cons_append, List.find?_cons_of_pos _ (by simpa using hk),
          List.find?_cons_of_pos _ (by simpa using hk)]
      · rw [List.cons_append, List.find?_cons_of_neg _ (by simpa using hk),
          List.find?_cons_of_neg _ (by simpa using hk)]
        exact ih (by simpa using h.2)

/-- `formats.Result`: the metadata record a structural decoder produces.
`Width`/`Height` are Go `int` (BMP can store negative widths), `ColorDepth`
is always assigned non-negative values. -/
structure Result where
  Width : Int := 0
  Height : Int := 0
  ColorDepth : Nat := 0
  ColorSpace : String := ""
  HasICCProfile : Bool := false
  EXIF : List (String × TagValue) := []
  Additional : List (String × AddValue) := []
deriving Repr, DecidableEq

/-- Distinguishable error values of the `formats` package (one constructor
per `fmt.Errorf` site family the claims can observe). -/
inductive Err where
  | readFailed (ctx : String)
  | invalidData (ctx : String)
  | unsupportedChunk (ctx : List Nat)
  | unsupportedDIB (size : Nat)
deriving Repr, DecidableEq

/-- Outcome of a decoder invocation.  `.fault` models a Go runtime panic
(e.g. `make([]byte, n)` with negative `n`).  `.fuelOut` is a modelling
artifact of the fuel-indexed loops; every claim pinning down an outcome
shows the constructor it actually is. -/
inductive Outcome where
  | ok (r : Result)
  | err (e : Err)
  | fault
  | fuelOut
deriving Repr, DecidableEq

/-- Width of a successful outcome. -/
def okWidth : Outcome → Option Int
  | .ok r => some r.Width
  | _ => none

/-- Height of a successful outcome. -/
def okHeight : Outcome → Option Int
  | .ok r => some r.Height
  | _ => none

/-- Color space of a successful outcome. -/
def okColorSpace : Outcome → Option String
  | .ok r => some r.ColorSpace
  | _ => none

/-- Color depth of a successful outcome. -/
def okColorDepth : Outcome → Option Nat
  | .ok r => some r.ColorDepth
  | _ => none

/-- ICC flag of a successful outcome. -/
def okICC : Outcome → Option Bool
  | .ok r => some r.HasICCProfile
  | _ => none

/-- `Additional` lookup inside a successful outcome. -/
def okAdd (k : String) : Outcome → Option (Option AddValue)
  | .ok r => some (mlookup k r.Additional)
  | _ => none

/-! ## Format detection (`formats.Detect` / `detectFormat`) -/

/-- `formats.Detect`: identify the format from the magic bytes, or return
the empty string.  Both copies in the repository (`formats.Detect` and
`detectFormat`) implement exactly these tests in this order. -/
def Detect (magicBytes : List Nat) : String :=
  if magicBytes.length < 2 then "" else
  -- JPEG: FF D8 FF
  if 3 ≤ magicBytes.length ∧ magicBytes.getD 0 0 = 0xFF ∧ magicBytes.getD 1 0 = 0xD8 ∧
     magicBytes.getD 2 0 = 0xFF then "JPEG" else
  -- PNG: 89 50 4E 47 0D 0A 1A 0A
  if 8 ≤ magicBytes.length ∧ magicBytes.getD 0 0 = 0x89 ∧ magicBytes.getD 1 0 = 0x50 ∧
     magicBytes.getD 2 0 = 0x4E ∧ magicBytes.getD 3 0 = 0x47 ∧ magicBytes.getD 4 0 = 0x0D ∧
     magicBytes.getD 5 0 = 0x0A ∧ magicBytes.getD 6 0 = 0x1A ∧ magicBytes.getD 7 0 = 0x0A
  then "PNG" else
  -- GIF87a / GIF89a
  if 6 ≤ magicBytes.length ∧ magicBytes.getD 0 0 = 0x47 ∧ magicBytes.getD 1 0 = 0x49 ∧
     magicBytes.getD 2 0 = 0x46 ∧ magicBytes.getD 3 0 = 0x38 ∧
     (magicBytes.getD 4 0 = 0x37 ∨ magicBytes.getD 4 0 = 0x39) ∧ magicBytes.getD 5 0 = 0x61
  then "GIF" else
  -- WebP: RIFF .... WEBP
  if 12 ≤ magicBytes.length ∧ magicBytes.getD 0 0 = 0x52 ∧ magicBytes.getD 1 0 = 0x49 ∧
     magicBytes.getD 2 0 = 0x46 ∧ magicBytes.getD 3 0 = 0x46 ∧ magicBytes.getD 8 0 = 0x57 ∧
     magicBytes.getD 9 0 = 0x45 ∧ magicBytes.getD 10 0 = 0x42 ∧ magicBytes.getD 11 0 = 0x50
  then "WebP" else
  -- BMP: BM
  if 2 ≤ magicBytes.length ∧ magicBytes.getD 0 0 = 0x42 ∧ magicBytes.getD 1 0 = 0x4D
  then "BMP" else ""

/-- A byte sequence begins with the 3-byte JPEG signature `FF D8 FF`. -/
def sigJPEG (b : List Nat) : Prop :=
  3 ≤ b.length ∧ b.getD 0 0 = 0xFF ∧ b.getD 1 0 = 0xD8 ∧ b.getD 2 0 = 0xFF

/-- A byte sequence begins with the exact 8-byte PNG signature. -/
def sigPNG (b : List Nat) : Prop :=
  8 ≤ b.length ∧ b.getD 0 0 = 0x89 ∧ b.getD 1 0 = 0x50 ∧ b.getD 2 0 = 0x4E ∧
  b.getD 3 0 = 0x47 ∧ b.getD 4 0 = 0x0D ∧ b.getD 5 0 = 0x0A ∧ b.getD 6 0 = 0x1A ∧
  b.getD 7 0 = 0x0A

/-- A byte sequence begins with `GIF87a` or `GIF89a`. -/
def sigGIF (b : List Nat) : Prop :=
  6 ≤ b.length ∧ b.getD 0 0 = 0x47 ∧ b.getD 1 0 = 0x49 ∧ b.getD 2 0 = 0x46 ∧
  b.getD 3 0 = 0x38 ∧ (b.getD 4 0 = 0x37 ∨ b.getD 4 0 = 0x39) ∧ b.getD 5 0 = 0x61

/-- A byte sequence begins with `RIFF` and carries `WEBP` at bytes 8–11
(requires at least 12 bytes). -/
def sigWebP (b : List Nat) : Prop :=
  12 ≤ b.length ∧ b.getD 0 0 = 0x52 ∧ b.getD 1 0 = 0x49 ∧ b.getD 2 0 = 0x46 ∧
  b.getD 3 0 = 0x46 ∧ b.getD 8 0 = 0x57 ∧ b.getD 9 0 = 0x45 ∧ b.getD 10 0 = 0x42 ∧
  b.getD 11 0 = 0x50

/-- A byte sequence begins with `BM`. -/
def sigBMP (b : List Nat) : Prop :=
  2 ≤ b.length ∧ b.getD 0 0 = 0x42 ∧ b.getD 1 0 = 0x4D

instance (b : List Nat) : Decidable (sigJPEG b) := by unfold sigJPEG; infer_instance
instance (b : List Nat) : Decidable (sigPNG b) := by unfold sigPNG; infer_instance
instance (b : List Nat) : Decidable (sigGIF b) := by unfold sigGIF; infer_instance
instance (b : List Nat) : Decidable (sigWebP b) := by unfold sigWebP; infer_instance
instance (b : List Nat) : Decidable (sigBMP b) := by unfold sigBMP; infer_instance

/-! ## TIFF/EXIF directory decoder (`parseTIFF`, `parseIFD`) -/

/-- TIFF byte order selected by the blob's first two bytes. -/
inductive ByteOrder where
  | le
  | be
deriving Repr, DecidableEq

/-- Combine two bytes under the byte order (`binary.ByteOrder.Uint16`). -/
def bo16 (bo : ByteOrder) (b0 b1 : Nat) : Nat :=
  match bo with
  | .le => le16 b0 b1
  | .be => be16 b0 b1

/-- Combine four bytes under the byte order (`binary.ByteOrder.Uint32`). -/
def bo32 (bo : ByteOrder) (b0 b1 b2 b3 : Nat) : Nat :=
  match bo with
  | .le => le32 b0 b1 b2 b3
  | .be => be32 b0 b1 b2 b3

/-- 16-bit field of a blob at `off` (both bytes in range at every use site). -/
def u16At (bo : ByteOrder) (data : List Nat) (off : Nat) : Nat :=
  bo16 bo (data.getD off 0) (data.getD (off + 1) 0)

/-- 32-bit field of a blob at `off`. -/
def u32At (bo : ByteOrder) (data : List Nat) (off : Nat) : Nat :=
  bo32 bo (data.getD off 0) (data.getD (off + 1) 0) (data.getD (off + 2) 0)
    (data.getD (off + 3) 0)

/-- `getDataTypeSize`: per-type byte width, defaulting to 1. -/
def getDataTypeSize (dataType : Nat) : Nat :=
  if dataType = 1 ∨ dataType = 2 ∨ dataType = 7 then 1
  else if dataType = 3 then 2
  else if dataType = 4 ∨ dataType = 9 then 4
  else if dataType = 5 ∨ dataType = 10 then 8
  else 1

/-- `getEXIFTagName`: curated tag-id-to-name table; unknown ids map to "". -/
def getEXIFTagName (tag : Nat) : String :=
  if tag = 0x0132 then "DateTime"
  else if tag = 0x010F then "Make"
  else if tag = 0x0110 then "Model"
  else if tag = 0x0112 then "Orientation"
  else if tag = 0x011A then "XResolution"
  else if tag = 0x011B then "YResolution"
  else if tag = 0x0128 then "ResolutionUnit"
  else if tag = 0x0131 then "Software"
  else if tag = 0x013B then "Artist"
  else if tag = 0x8298 then "Copyright"
  else if tag = 0x8827 then "ISO"
  else if tag = 0x829A then "ExposureTime"
  else if tag = 0x829D then "FNumber"
  else if tag = 0x9003 then "DateTimeOriginal"
  else if tag = 0x9004 then "DateTimeDigitized"
  else ""

/-- `readTagValue`: decode a tag value from its raw bytes.  Go returns
`interface{}` nil in the fall-through cases, modelled as `.null`; the
rational cases produce `float64` quotients, carried exactly. -/
def readTagValue (data : List Nat) (dataType : Nat) (count : Nat) (bo : ByteOrder) :
    TagValue :=
  if dataType = 1 ∨ dataType = 7 then
    -- byte / undefined
    if count = 1 ∧ 1 ≤ data.length then .byte (data.getD 0 0)
    else .bytes (data.take (min count data.length))
  else if dataType = 2 then
    -- ASCII, single trailing null byte stripped
    if count ≤ data.length then
      let str := data.take count
      if 0 < str.length ∧ str.getLast? = some 0 then .text (str.dropLast) else .text str
    else .text []
  else if dataType = 3 then
    -- short
    if count = 1 ∧ 2 ≤ data.length then .short (bo16 bo (data.getD 0 0) (data.getD 1 0))
    else .shorts ((List.range (min count (data.length / 2))).map
      (fun i => bo16 bo (data.getD (i * 2) 0) (data.getD (i * 2 + 1) 0)))
  else if dataType = 4 ∨ dataType = 9 then
    -- long / signed long
    if count = 1 ∧ 4 ≤ data.length then
      let val := bo32 bo (data.getD 0 0) (data.getD 1 0) (data.getD 2 0) (data.getD 3 0)
      if dataType = 9 then .slong (i32 val) else .long val
    else .longs ((List.range (min count (data.length / 4))).map
      (fun i => bo32 bo (data.getD (i * 4) 0) (data.getD (i * 4 + 1) 0)
        (data.getD (i * 4 + 2) 0) (data.getD (i * 4 + 3) 0)))
  else if dataType = 5 ∨ dataType = 10 then
    -- rational / signed rational as a floating-point ratio
    if count = 1 ∧ 8 ≤ data.length then
      let num := bo32 bo (data.getD 0 0) (data.getD 1 0) (data.getD 2 0) (data.getD 3 0)
      let den := bo32 bo (data.getD 4 0) (data.getD 5 0) (data.getD 6 0) (data.getD 7 0)
      if den = 0 then .flt 0
      else if dataType = 10 then .flt ((i32 num : Rat) / (i32 den : Rat))
      else .flt ((num : Rat) / (den : Rat))
    else .null
  else .null

/-- The EXIF-sub-IFD pointer tag id (`exifTagExifIFD`). -/
def exifTagExifIFD : Nat := 0x8769

/-- The entry loop of `parseIFD`: `for i := 0; i < numEntries && offset+12 <=
len(data); i++ { ... }`, structurally recursive on the remaining entry
count.  The in-loop `ExifIFD` recursion into a nested directory is the
`recurse` parameter (instantiated by `parseIFDAux` with the next depth), so
that both functions are plain structural recursions the kernel can
evaluate. -/
def parseEntriesAux (recurse : Nat → List (String × TagValue) → List (String × TagValue))
    (data : List Nat) (offset : Nat) (bo : ByteOrder)
    (exif : List (String × TagValue)) : Nat → List (String × TagValue)
  | 0 => exif
  | n + 1 =>
    if data.length < offset + 12 then exif
    else
      let tag := u16At bo data offset
      let dataType := u16At bo data (offset + 2)
      let count := u32At bo data (offset + 4)
      let valueOffset := u32At bo data (offset + 8)
      let valueSize := getDataTypeSize dataType * count
      let value :=
        if valueSize ≤ 4 then
          readTagValue ((data.drop (offset + 8)).take 4) dataType count bo
        else if valueOffset < data.length ∧ valueOffset + valueSize ≤ data.length then
          readTagValue ((data.drop valueOffset).take valueSize) dataType count bo
        else .null
      let exif1 :=
        if getEXIFTagName tag ≠ "" then mset (getEXIFTagName tag) value exif else exif
      let exif2 :=
        if tag = exifTagExifIFD ∧ valueSize ≤ 4 ∧ valueOffset < data.length then
          recurse valueOffset exif1
        else exif1
      parseEntriesAux recurse data (offset + 12) bo exif2 n

/-- `parseIFD`, fuel-indexed.  The Go function recurses with `depth+1` and
its guard `depth > 10` bounds the chain, so `fuel = 11 - depth` is an exact
structural measure: the caller below always maintains that equation, under
which the `0` fuel case coincides with the `depth > 10` guard (both return
the map unchanged). -/
def parseIFDAux : Nat → List Nat → Nat → ByteOrder →
    List (String × TagValue) → Nat → List (String × TagValue)
  | 0, _, _, _, exif, _ => exif
  | fuel + 1, data, offset, bo, exif, depth =>
    if 10 < depth ∨ data.length < offset + 2 then exif
    else
      parseEntriesAux (fun off ex => parseIFDAux fuel data off bo ex (depth + 1))
        data (offset + 2) bo exif (u16At bo data offset)

/-- `parseIFD data offset bo exif depth`: the Go signature, with the fuel
fixed by the depth so that the guard semantics are exact. -/
def parseIFD (data : List Nat) (offset : Nat) (bo : ByteOrder)
    (exif : List (String × TagValue)) (depth : Nat) : List (String × TagValue) :=
  parseIFDAux (11 - depth) data offset bo exif depth

/-- `parseTIFF`: byte-order marker, magic 42, first-IFD offset bound check,
then the recursive directory parse starting at depth 0. -/
def parseTIFF (data : List Nat) : Except String (List (String × TagValue)) :=
  if data.length < 8 then .error "insufficient data for TIFF header"
  else
    let bo? : Option ByteOrder :=
      if data.getD 0 0 = 0x49 ∧ data.getD 1 0 = 0x49 then some .le
      else if data.getD 0 0 = 0x4D ∧ data.getD 1 0 = 0x4D then some .be
      else none
    match bo? with
    | none => .error "invalid TIFF byte order"
    | some bo =>
      if u16At bo data 2 ≠ 42 then .error "invalid TIFF magic number"
      else
        let ifdOffset := u32At bo data 4
        if data.length ≤ ifdOffset then .error "IFD offset out of bounds"
        else .ok (parseIFD data ifdOffset bo [] 0)

instance {α β : Type} [DecidableEq α] [DecidableEq β] : DecidableEq (Except α β) :=
  fun a b =>
  match a, b with
  | .ok x, .ok y =>
    if h : x = y then isTrue (by rw [h]) else isFalse (by simp [h])
  | .error x, .error y =>
    if h : x = y then isTrue (by rw [h]) else isFalse (by simp [h])
  | .ok _, .error _ => isFalse (by simp)
  | .error _, .ok _ => isFalse (by simp)

/-! ## PNG decoder (`ExtractPNG`) -/

/-- Chunk-type bytes of `"IHDR"`. -/
def cIHDR : List Nat := [0x49, 0x48, 0x44, 0x52]

/-- Chunk-type bytes of `"iCCP"`. -/
def ciCCP : List Nat := [0x69, 0x43, 0x43, 0x50]

/-- Chunk-type bytes of `"eXIf"`. -/
def ceXIf : List Nat := [0x65, 0x58, 0x49, 0x66]

/-- Chunk-type bytes of `"IEND"`. -/
def cIEND : List Nat := [0x49, 0x45, 0x4E, 0x44]

/-- Result of the PNG chunk loop: the record and the local `hasICC` flag,
or fuel exhaustion (shown unreachable for the fuel `ExtractPNG` passes). -/
inductive PngLoopOut where
  | done (r : Result) (icc : Bool)
  | fuelOut
deriving Repr, DecidableEq

/-- The 4-byte chunk-type bytes as a plain list. -/
def ctOf (chunkType : List Nat) : List Nat :=
  [chunkType.getD 0 0, chunkType.getD 1 0, chunkType.getD 2 0, chunkType.getD 3 0]

/-- Big-endian 32-bit chunk length from the 4-byte length buffer. -/
def pngLen (lengthBytes : List Nat) : Nat :=
  be32 (lengthBytes.getD 0 0) (lengthBytes.getD 1 0) (lengthBytes.getD 2 0)
    (lengthBytes.getD 3 0)

/-- Per-chunk processing of the PNG loop body: `IHDR` (when at least 13
data bytes) stores dimensions, depth, color type and the four method
fields; `iCCP` sets the local ICC flag; `eXIf` hands the chunk data to
`parseTIFF`, merging on success. -/
def pngHandleChunk (res : Result) (icc : Bool) (ct : List Nat) (length : Nat)
    (chunkData : List Nat) : Result × Bool :=
  let res :=
    if ct = cIHDR ∧ 13 ≤ length then
      let bitDepth := chunkData.getD 8 0
      let colorType := chunkData.getD 9 0
      let add :=
        mset "InterlaceMethod" (.n (chunkData.getD 12 0))
          (mset "FilterMethod" (.n (chunkData.getD 11 0))
            (mset "CompressionMethod" (.n (chunkData.getD 10 0))
              (mset "ColorType" (.n colorType)
                (mset "BitDepth" (.n bitDepth) res.Additional))))
      { res with
        Width := (be32 (chunkData.getD 0 0) (chunkData.getD 1 0)
          (chunkData.getD 2 0) (chunkData.getD 3 0) : Nat),
        Height := (be32 (chunkData.getD 4 0) (chunkData.getD 5 0)
          (chunkData.getD 6 0) (chunkData.getD 7 0) : Nat),
        ColorDepth := bitDepth,
        Additional := add,
        ColorSpace :=
          if colorType = 0 then "Grayscale"
          else if colorType = 2 then "RGB"
          else if colorType = 3 then "Indexed"
          else if colorType = 4 then "GrayscaleAlpha"
          else if colorType = 6 then "RGBA"
          else "Unknown" }
    else res
  let icc := if ct = ciCCP then true else icc
  let res :=
    if ct = ceXIf then
      match parseTIFF chunkData with
      | .ok exifData => { res with EXIF := mmerge res.EXIF exifData }
      | .error _ => res
    else res
  (res, icc)

/-- The PNG chunk loop: read a 4-byte big-endian length, 4-byte type,
`length` bytes of data (the fresh buffer is zero-filled and read into only
when `length > 0`), 4 CRC bytes (error ignored); process the chunk; stop on
`IEND` or on any read failure. -/
def pngChunks : Nat → St → Result → Bool → PngLoopOut
  | 0, _, _, _ => .fuelOut
  | fuel + 1, st, res, icc =>
    match goRead 4 st with
    | none => .done res icc
    | some (lengthBytes, st1) =>
      match goRead 4 st1 with
      | none => .done res icc
      | some (chunkType, st2) =>
        match (if 0 < pngLen lengthBytes then goRead (pngLen lengthBytes) st2
               else some (List.replicate (pngLen lengthBytes) 0, st2)) with
        | none => .done res icc
        | some (chunkData, st3) =>
          if ctOf chunkType = cIEND then
            .done (pngHandleChunk res icc (ctOf chunkType) (pngLen lengthBytes)
                chunkData).1
              (pngHandleChunk res icc (ctOf chunkType) (pngLen lengthBytes)
                chunkData).2
          else
            pngChunks fuel ((goReadPad 4 st3).2)
              (pngHandleChunk res icc (ctOf chunkType) (pngLen lengthBytes)
                chunkData).1
              (pngHandleChunk res icc (ctOf chunkType) (pngLen lengthBytes)
                chunkData).2

/-- `ExtractPNG`: verify the 8-byte signature, then run the chunk loop; the
final record carries the loop's `hasICC` flag.  The loop consumes at least
one byte per iteration, so `data.length + 1` fuel never runs out
(`pngChunks_done`). -/
def ExtractPNG (data : List Nat) : Outcome :=
  let st0 : St := ⟨data, 0⟩
  match goRead 8 st0 with
  | none => .err (.readFailed "failed to read PNG signature")
  | some (sig, st1) =>
    if sig.getD 0 0 = 0x89 ∧ sig.getD 1 0 = 0x50 ∧ sig.getD 2 0 = 0x4E ∧
       sig.getD 3 0 = 0x47 ∧ sig.getD 4 0 = 0x0D ∧ sig.getD 5 0 = 0x0A ∧
       sig.getD 6 0 = 0x1A ∧ sig.getD 7 0 = 0x0A then
      match pngChunks (data.length + 1) st1 {} false with
      | .done res icc => .ok { res with HasICCProfile := icc }
      | .fuelOut => .fuelOut
    else .err (.invalidData "invalid PNG file")

/-! ## JPEG decoder (`ExtractJPEG`) -/

/-- Result of skipping `0xFF` stuffing bytes: the first non-`FF` marker
type byte and the stream after it, a propagated read error, or fuel
exhaustion (modelling artifact; the skip consumes two bytes per step). -/
inductive StuffOut where
  | ok (markerType : Nat) (st : St)
  | errOut (e : Err)
  | fuelOut
deriving Repr, DecidableEq

/-- `for markerType == 0xFF { read marker; markerType = marker[1] }`;
a read failure inside this loop is returned as an error by the decoder. -/
def jpegStuffSkip : Nat → Nat → St → StuffOut
  | 0, _, _ => .fuelOut
  | fuel + 1, markerType, st =>
    if markerType = 0xFF then
      match goRead 2 st with
      | none => .errOut (.readFailed "failed to read JPEG marker")
      | some (marker, st1) => jpegStuffSkip fuel (marker.getD 1 0) st1
    else .ok markerType st

/-- The Start-of-Frame marker bytes handled by the SOF case. -/
def sofMarkers : List Nat :=
  [0xC0, 0xC1, 0xC2, 0xC3, 0xC5, 0xC6, 0xC7, 0xC9, 0xCA, 0xCB, 0xCD, 0xCE, 0xCF]

/-- The `"Exif\x00\x00"` identifier bytes. -/
def exifIdent : List Nat := [0x45, 0x78, 0x69, 0x66, 0, 0]

/-- The `"ICC_PROFILE"` identifier bytes. -/
def iccIdent : List Nat := [0x49, 0x43, 0x43, 0x5F, 0x50, 0x52, 0x4F, 0x46, 0x49, 0x4C, 0x45]

/-- Result of the JPEG segment loop: the record and local `hasICC` flag on
loop exit, a propagated read error, a runtime fault (Go panic from
`make([]byte, n)` with negative `n`), or fuel exhaustion. -/
inductive JpegLoopOut where
  | done (res : Result) (icc : Bool)
  | errOut (e : Err)
  | fault
  | fuelOut
deriving Repr, DecidableEq

/-- SOF payload processing: read at most the first 9 payload bytes; store
`precision*3` as `colorDepth` and the raw precision; big-endian height then
width; map the component count to a color space.  Mirrors the in-loop code
on the buffer `sofData`. -/
def jpegHandleSOF (res : Result) (sofData : List Nat) : Result :=
  if 5 ≤ sofData.length then
    let precision := sofData.getD 0 0
    let res := { res with
      ColorDepth := precision * 3,
      Additional := mset "BitsPerSample" (.n precision) res.Additional }
    let res := { res with
      Height := (be16 (sofData.getD 1 0) (sofData.getD 2 0) : Nat),
      Width := (be16 (sofData.getD 3 0) (sofData.getD 4 0) : Nat) }
    if 6 ≤ sofData.length then
      let numComponents := sofData.getD 5 0
      { res with
        Additional := mset "Components" (.n numComponents) res.Additional,
        ColorSpace :=
          if numComponents = 1 then "Grayscale"
          else if numComponents = 3 then "RGB"
          else if numComponents = 4 then "CMYK"
          else "Unknown" }
    else res
  else res

/-- The JPEG segment loop.  Each iteration reads a 2-byte marker (loop ends
if the first byte is not `FF`), skips `FF` stuffing, ends on EOI (`D9`),
skips restart markers (`D0`–`D7`) without a length, and otherwise reads a
2-byte big-endian length whose value minus 2 is the payload size — a value
below 2 makes the payload size negative, and the `make([]byte, n)` of the
APP1/APP2/SOF branches then panics (`.fault`). -/
def jpegSegments : Nat → St → Result → Bool → JpegLoopOut
  | 0, _, _, _ => .fuelOut
  | fuel + 1, st, res, icc =>
    match goRead 2 st with
    | none => .done res icc
    | some (marker, st1) =>
      if marker.getD 0 0 ≠ 0xFF then .done res icc
      else
        match jpegStuffSkip (fuel + 1) (marker.getD 1 0) st1 with
        | .errOut e => .errOut e
        | .fuelOut => .fuelOut
        | .ok markerType st2 =>
          if markerType = 0xD9 then .done res icc
          else if 0xD0 ≤ markerType ∧ markerType ≤ 0xD7 then
            jpegSegments fuel st2 res icc
          else
            match goRead 2 st2 with
            | none => .done res icc
            | some (lengthBytes, st3) =>
              let length : Int :=
                (be16 (lengthBytes.getD 0 0) (lengthBytes.getD 1 0) : Int) - 2
              if markerType = 0xE0 then
                -- APP0: payload skipped via a relative seek
                jpegSegments fuel (seekCur length st3) res icc
              else if markerType = 0xE1 then
                -- APP1: `make([]byte, length)` panics when length < 0
                if length < 0 then .fault
                else
                  match goRead length.toNat st3 with
                  | none => jpegSegments fuel st3 res icc
                  | some (segmentData, st4) =>
                    let res :=
                      if 6 ≤ segmentData.length ∧ segmentData.take 6 = exifIdent then
                        match parseTIFF (segmentData.drop 6) with
                        | .ok exifData => { res with EXIF := mmerge res.EXIF exifData }
                        | .error _ => res
                      else res
                    jpegSegments fuel st4 res icc
              else if markerType = 0xE2 then
                -- APP2: ICC profile identifier check
                if length < 0 then .fault
                else
                  match goRead length.toNat st3 with
                  | none => jpegSegments fuel st3 res icc
                  | some (segmentData, st4) =>
                    let icc :=
                      if 11 ≤ segmentData.length ∧ segmentData.take 11 = iccIdent then
                        true
                      else icc
                    jpegSegments fuel st4 res icc
              else if markerType ∈ sofMarkers then
                -- SOF: read at most the first 9 payload bytes
                if length < 0 then .fault
                else
                  match goRead (min length 9).toNat st3 with
                  | none => jpegSegments fuel st3 res icc
                  | some (sofData, st4) =>
                    let res := jpegHandleSOF res sofData
                    let st5 := if 9 < length then seekCur (length - 9) st4 else st4
                    jpegSegments fuel st5 res icc
              else
                -- unknown segment: payload skipped via a relative seek
                jpegSegments fuel (seekCur length st3) res icc

/-- `ExtractJPEG`: verify the `FF D8` SOI marker, run the segment loop,
assign the local ICC flag and default the color space to RGB when no SOF
segment set one. -/
def ExtractJPEG (data : List Nat) : Outcome :=
  let st0 : St := ⟨data, 0⟩
  match goRead 2 st0 with
  | none => .err (.readFailed "failed to read JPEG header")
  | some (buf, st1) =>
    if ¬ (buf.getD 0 0 = 0xFF ∧ buf.getD 1 0 = 0xD8) then
      .err (.invalidData "invalid JPEG file")
    else
      match jpegSegments (data.length + 2) st1 {} false with
      | .done res icc =>
        .ok { res with
          HasICCProfile := icc,
          ColorSpace := if res.ColorSpace = "" then "RGB" else res.ColorSpace }
      | .errOut e => .err e
      | .fault => .fault
      | .fuelOut => .fuelOut

/-! ## WebP decoder (`ExtractWebP`, `parseVP8`, `parseVP8L`, `parseVP8X`) -/

/-- `parseVP8`: 10-byte key-frame header, start code `9D 01 2A`, two 14-bit
little-endian-packed dimensions stored plus one, `colorDepth` 24. -/
def parseVP8 (st : St) (res : Result) : Except Err (Result × St) :=
  match goRead 10 st with
  | none => .error (.readFailed "failed to read VP8 key frame")
  | some (keyFrame, st1) =>
    if ¬ (keyFrame.getD 0 0 = 0x9D ∧ keyFrame.getD 1 0 = 0x01 ∧ keyFrame.getD 2 0 = 0x2A)
    then .error (.invalidData "invalid VP8 key frame")
    else
      let width := keyFrame.getD 6 0 + 256 * (keyFrame.getD 7 0 &&& 0x3F)
      let height := keyFrame.getD 8 0 + 256 * (keyFrame.getD 9 0 &&& 0x3F)
      .ok ({ res with Width := width + 1, Height := height + 1, ColorDepth := 24 }, st1)

/-- `parseVP8L`: 5-byte header, signature byte `0x2F`, 14-bit packed
dimensions spanning byte boundaries, stored plus one, `colorDepth` 32. -/
def parseVP8L (st : St) (res : Result) : Except Err (Result × St) :=
  match goRead 5 st with
  | none => .error (.readFailed "failed to read VP8L header")
  | some (header, st1) =>
    if header.getD 0 0 ≠ 0x2F then .error (.invalidData "invalid VP8L signature")
    else
      let width := header.getD 1 0 + 256 * (header.getD 2 0 &&& 0x3F)
      let height := (header.getD 2 0 >>> 6) + 4 * (header.getD 3 0 &&& 0xF) +
        1024 * (header.getD 4 0 &&& 0x3F)
      .ok ({ res with Width := width + 1, Height := height + 1, ColorDepth := 32 }, st1)

/-- `parseVP8X`: 10-byte header beginning with the literal `VP8X`, a flags
byte (`0x20` ICC, `0x10` alpha, `0x08` EXIF, `0x04` XMP, `0x02` animation),
then the packed dimension fields exactly as the code computes them:
`width = b6 | b7<<8 | (b8 & 0x0F)<<16`, `height = b8>>4 | b9<<4`. -/
def parseVP8X (st : St) (res : Result) : Except Err (Result × St) :=
  match goRead 10 st with
  | none => .error (.readFailed "failed to read VP8X header")
  | some (header, st1) =>
    if ¬ (header.getD 0 0 = 0x56 ∧ header.getD 1 0 = 0x50 ∧ header.getD 2 0 = 0x38 ∧
          header.getD 3 0 = 0x58)  -- "VP8X"
    then .error (.invalidData "invalid VP8X signature")
    else
      let flags := header.getD 4 0
      let width := header.getD 6 0 + 256 * header.getD 7 0 + 65536 * (header.getD 8 0 &&& 0x0F)
      let height := (header.getD 8 0 >>> 4) + 16 * header.getD 9 0
      let res := { res with
        Width := width + 1, Height := height + 1,
        ColorDepth := if flags &&& 0x10 ≠ 0 then 32 else 24 }
      let add :=
        mset "Animation" (.b (decide (flags &&& 0x02 ≠ 0)))
          (mset "XMP" (.b (decide (flags &&& 0x04 ≠ 0)))
            (mset "EXIF" (.b (decide (flags &&& 0x08 ≠ 0)))
              (mset "Alpha" (.b (decide (flags &&& 0x10 ≠ 0)))
                (mset "ICC" (.b (decide (flags &&& 0x20 ≠ 0)))
                  (mset "Reserved" (.n ((flags &&& 0xE0) >>> 5)) res.Additional)))))
      let res := { res with Additional := add }
      let res := if flags &&& 0x20 ≠ 0 then { res with HasICCProfile := true } else res
      .ok (res, st1)

/-- `ExtractWebP`: verify the 12-byte RIFF/WEBP container, dispatch on the
4-byte chunk tag, then set `colorSpace` from the alpha signal and record the
animation/alpha booleans. -/
def ExtractWebP (data : List Nat) : Outcome :=
  let st0 : St := ⟨data, 0⟩
  match goRead 12 st0 with
  | none => .err (.readFailed "failed to read WebP header")
  | some (header, st1) =>
    if ¬ (header.getD 0 0 = 0x52 ∧ header.getD 1 0 = 0x49 ∧ header.getD 2 0 = 0x46 ∧
          header.getD 3 0 = 0x46)  -- "RIFF"
    then .err (.invalidData "missing RIFF signature")
    else if ¬ (header.getD 8 0 = 0x57 ∧ header.getD 9 0 = 0x45 ∧ header.getD 10 0 = 0x42 ∧
               header.getD 11 0 = 0x50)  -- "WEBP"
    then .err (.invalidData "missing WEBP signature")
    else
      match goRead 4 st1 with
      | none => .err (.readFailed "failed to read WebP chunk type")
      | some (chunkType, st2) =>
        let ct := [chunkType.getD 0 0, chunkType.getD 1 0, chunkType.getD 2 0,
                   chunkType.getD 3 0]
        let res0 : Result := {}
        let parsed : Except Err (Result × Bool × Bool) :=
          if ct = [0x56, 0x50, 0x38, 0x20] then  -- "VP8 "
            (parseVP8 st2 res0).map (fun p => (p.1, false, false))
          else if ct = [0x56, 0x50, 0x38, 0x4C] then  -- "VP8L"
            (parseVP8L st2 res0).map (fun p => (p.1, false, true))
          else if ct = [0x56, 0x50, 0x38, 0x58] then  -- "VP8X"
            (parseVP8X st2 res0).map (fun p =>
              let r := p.1
              let anim := match mlookup "Animation" r.Additional with
                | some (.b v) => v
                | _ => false
              let alpha := match mlookup "Alpha" r.Additional with
                | some (.b v) => v
                | _ => false
              (r, anim, alpha))
          else .error (.unsupportedChunk ct)
        match parsed with
        | .error e => .err e
        | .ok (res, hasAnimation, hasAlpha) =>
          let res := { res with ColorSpace := if hasAlpha then "RGBA" else "RGB" }
          let add :=
            mset "HasAlpha" (.b hasAlpha)
              (mset "HasAnimation" (.b hasAnimation) res.Additional)
          .ok { res with Additional := add }

/-! ## GIF decoder (`ExtractGIF`) -/

/-- The `"NETSCAPE2.0"` application identifier bytes. -/
def netscapeIdent : List Nat :=
  [0x4E, 0x45, 0x54, 0x53, 0x43, 0x41, 0x50, 0x45, 0x32, 0x2E, 0x30]

/-- Bytes rendered as a Go string (used for the stored version tag). -/
def strOfBytes (l : List Nat) : String := String.mk (l.map Char.ofNat)

/-- Result of the GIF block loop: loop left via the `0x3B` trailer (the
record is returned directly, before the transparency/animation/frame-count
attributes are stored), via a failed block-tag read (`brk`, after which the
caller stores those attributes), via an extension-label read error, or by
fuel exhaustion (modelling artifact). -/
inductive GifLoopOut where
  | trailer (res : Result)
  | brk (res : Result) (hasTransparency hasAnimation : Bool) (frameCount : Nat)
  | errOut (e : Err)
  | fuelOut
deriving Repr, DecidableEq

/-- Skip a GIF sub-block chain: length-prefixed blocks until a zero length;
all read errors are ignored (a failed 1-byte read leaves the fresh buffer
zero, which terminates the chain).  `none` is fuel exhaustion. -/
def gifSkipSub : Nat → St → Option St
  | 0, _ => none
  | fuel + 1, st =>
    let sizeBuf := (goReadPad 1 st).1
    let st1 := (goReadPad 1 st).2
    if sizeBuf.getD 0 0 = 0 then some st1
    else gifSkipSub fuel (goReadPad (sizeBuf.getD 0 0) st1).2

/-- The GIF block loop over leading tag bytes: `0x21` extensions (Graphic
Control `0xF9`, Application `0xFF`, other labels), `0x2C` image
descriptors (counting frames and skipping local color tables and image
data), the `0x3B` trailer, and unknown tags (ignored). -/
def gifBlocks : Nat → St → Result → Bool → Bool → Nat → GifLoopOut
  | 0, _, _, _, _, _ => .fuelOut
  | fuel + 1, st, res, ht, ha, fc =>
    match goRead 1 st with
    | none => .brk res ht ha fc
    | some (blockType, st1) =>
      if blockType.getD 0 0 = 0x21 then
        match goRead 1 st1 with
        | none => .errOut (.readFailed "failed to read GIF extension label")
        | some (extLabel, st2) =>
          if extLabel.getD 0 0 = 0xF9 then
            -- Graphic Control Extension: size byte (expected 4), 4 data
            -- bytes whose low bit is the transparency flag, terminator
            let blockSize := (goReadPad 1 st2).1
            let st3 := (goReadPad 1 st2).2
            if blockSize.getD 0 0 = 4 then
              let gceData := (goReadPad 4 st3).1
              let st4 := (goReadPad 4 st3).2
              let ht := if gceData.getD 0 0 &&& 0x01 ≠ 0 then true else ht
              gifBlocks fuel ((goReadPad 1 st4).2) res ht ha fc
            else
              gifBlocks fuel ((goReadPad 1 st3).2) res ht ha fc
          else if extLabel.getD 0 0 = 0xFF then
            -- Application Extension: size byte (expected 11), 11 bytes
            -- compared with NETSCAPE2.0, then the sub-block chain
            let blockSize := (goReadPad 1 st2).1
            let st3 := (goReadPad 1 st2).2
            if blockSize.getD 0 0 = 11 then
              let appData := (goReadPad 11 st3).1
              let st4 := (goReadPad 11 st3).2
              let ha := if appData = netscapeIdent then true else ha
              match gifSkipSub fuel st4 with
              | none => .fuelOut
              | some st5 => gifBlocks fuel st5 res ht ha fc
            else
              gifBlocks fuel st3 res ht ha fc
          else
            -- other labels: consume the sub-block chain
            match gifSkipSub fuel st2 with
            | none => .fuelOut
            | some st3 => gifBlocks fuel st3 res ht ha fc
      else if blockType.getD 0 0 = 0x2C then
        -- image descriptor: count the frame, skip descriptor, local color
        -- table, LZW minimum code size, and the image sub-block chain
        let imgDesc := (goReadPad 9 st1).1
        let st2 := (goReadPad 9 st1).2
        let st3 :=
          if imgDesc.getD 8 0 &&& 0x80 ≠ 0 then
            seekCur (3 * (1 <<< ((imgDesc.getD 8 0 &&& 0x07) + 1))) st2
          else st2
        let st4 := (goReadPad 1 st3).2
        match gifSkipSub fuel st4 with
        | none => .fuelOut
        | some st5 => gifBlocks fuel st5 res ht ha (fc + 1)
      else if blockType.getD 0 0 = 0x3B then .trailer res
      else gifBlocks fuel st1 res ht ha fc

/-- `ExtractGIF`: verify the 6-byte signature, read the 7-byte Logical
Screen Descriptor, skip the global color table when present, then loop over
blocks.  Only the `brk` exit (a failed block-tag read) stores the
`HasTransparency`/`HasAnimation`/`FrameCount` attributes; the trailer exit
returns the record without them. -/
def ExtractGIF (data : List Nat) : Outcome :=
  match goRead 6 ⟨data, 0⟩ with
  | none => .err (.readFailed "failed to read GIF signature")
  | some (sig, st1) =>
    if ¬ (sig.getD 0 0 = 0x47 ∧ sig.getD 1 0 = 0x49 ∧ sig.getD 2 0 = 0x46) ∨
       (sig.getD 3 0 ≠ 0x38 ∧ sig.getD 3 0 ≠ 0x39) ∨ sig.getD 5 0 ≠ 0x61 then
      .err (.invalidData "invalid GIF file")
    else
      match goRead 7 st1 with
      | none => .err (.readFailed "failed to read GIF logical screen descriptor")
      | some (lsd, st2) =>
        let packed := lsd.getD 4 0
        let globalColorTableFlag := packed &&& 0x80 ≠ 0
        let colorResolution := ((packed >>> 4) &&& 0x07) + 1
        let sortFlag := packed &&& 0x08 ≠ 0
        let globalColorTableSize := (packed &&& 0x07) + 1
        let add :=
          mset "PixelAspectRatio" (.n (lsd.getD 6 0))
            (mset "BackgroundColorIndex" (.n (lsd.getD 5 0))
              (mset "GlobalColorTableSize" (.n globalColorTableSize)
                (mset "SortFlag" (.b (decide sortFlag))
                  (mset "ColorResolution" (.n colorResolution)
                    (mset "GlobalColorTable" (.b (decide globalColorTableFlag))
                      (mset "Version"
                        (.s (strOfBytes [sig.getD 3 0, sig.getD 4 0, sig.getD 5 0]))
                        []))))))
        let res : Result := {
          Width := (le16 (lsd.getD 0 0) (lsd.getD 1 0) : Nat),
          Height := (le16 (lsd.getD 2 0) (lsd.getD 3 0) : Nat),
          ColorSpace := "Indexed",
          ColorDepth := colorResolution * 3,
          Additional := add }
        let st3 :=
          if globalColorTableFlag then
            seekCur (3 * (1 <<< globalColorTableSize)) st2
          else st2
        match gifBlocks (data.length + 1) st3 res false false 0 with
        | .trailer r => .ok r
        | .brk r ht ha fc =>
          let add2 := mset "FrameCount" (.n fc) (mset "HasAnimation" (.b ha)
            (mset "HasTransparency" (.b ht) r.Additional))
          .ok { r with Additional := add2 }
        | .errOut e => .err e
        | .fuelOut => .fuelOut

/-! ## BMP decoder (`ExtractBMP`) -/

/-- `compressionNames`: the fixed six-entry compression table. -/
def compressionName (compression : Nat) : Option String :=
  if compression = 0 then some "BI_RGB"
  else if compression = 1 then some "BI_RLE8"
  else if compression = 2 then some "BI_RLE4"
  else if compression = 3 then some "BI_BITFIELDS"
  else if compression = 4 then some "BI_JPEG"
  else if compression = 5 then some "BI_PNG"
  else none

/-- `ExtractBMP`: 14-byte file header starting `BM`, the 4-byte DIB header
size, then one of the two DIB variants (≥ 40 or exactly 12); any other size
fails with the unsupported-DIB-header-size error. -/
def ExtractBMP (data : List Nat) : Outcome :=
  let st0 : St := ⟨data, 0⟩
  match goRead 14 st0 with
  | none => .err (.readFailed "failed to read BMP file header")
  | some (fileHeader, st1) =>
    if ¬ (fileHeader.getD 0 0 = 0x42 ∧ fileHeader.getD 1 0 = 0x4D)
    then .err (.invalidData "invalid BMP file")
    else
      let fileSize := le32 (fileHeader.getD 2 0) (fileHeader.getD 3 0)
        (fileHeader.getD 4 0) (fileHeader.getD 5 0)
      let dataOffset := le32 (fileHeader.getD 10 0) (fileHeader.getD 11 0)
        (fileHeader.getD 12 0) (fileHeader.getD 13 0)
      let add0 :=
        mset "DataOffset" (.n dataOffset)
          (mset "FileSizeFromHeader" (.n fileSize) [])
      let res : Result := { Additional := add0 }
      match goRead 4 st1 with
      | none => .err (.readFailed "failed to read DIB header size")
      | some (dibSizeBytes, st2) =>
        let dibSize := le32 (dibSizeBytes.getD 0 0) (dibSizeBytes.getD 1 0)
          (dibSizeBytes.getD 2 0) (dibSizeBytes.getD 3 0)
        if 40 ≤ dibSize then
          match goRead 36 st2 with
          | none => .err (.readFailed "failed to read DIB header")
          | some (dib, _) =>
            let width := i32 (le32 (dib.getD 0 0) (dib.getD 1 0) (dib.getD 2 0)
              (dib.getD 3 0))
            let height := i32 (le32 (dib.getD 4 0) (dib.getD 5 0) (dib.getD 6 0)
              (dib.getD 7 0))
            let planes := le16 (dib.getD 8 0) (dib.getD 9 0)
            let bitsPerPixel := le16 (dib.getD 10 0) (dib.getD 11 0)
            let compression := le32 (dib.getD 12 0) (dib.getD 13 0) (dib.getD 14 0)
              (dib.getD 15 0)
            let imageSize := le32 (dib.getD 16 0) (dib.getD 17 0) (dib.getD 18 0)
              (dib.getD 19 0)
            let xPixelsPerM := le32 (dib.getD 20 0) (dib.getD 21 0) (dib.getD 22 0)
              (dib.getD 23 0)
            let yPixelsPerM := le32 (dib.getD 24 0) (dib.getD 25 0) (dib.getD 26 0)
              (dib.getD 27 0)
            let colorsUsed := le32 (dib.getD 28 0) (dib.getD 29 0) (dib.getD 30 0)
              (dib.getD 31 0)
            let colorsImportant := le32 (dib.getD 32 0) (dib.getD 33 0) (dib.getD 34 0)
              (dib.getD 35 0)
            let res := { res with Width := width }
            -- Height can be negative (top-down DIB); the code's two-branch
            -- assignment is expressed fieldwise: `abs(height)` is stored and
            -- the TopDown flag records which branch ran.
            let res := { res with
              Height := if height < 0 then -height else height,
              Additional := mset "TopDown" (.b (decide (height < 0))) res.Additional }
            let res := { res with
              ColorDepth := bitsPerPixel,
              Additional :=
                mset "ColorsImportant" (.n colorsImportant)
                  (mset "ColorsUsed" (.n colorsUsed)
                    (mset "YPixelsPerMeter" (.n yPixelsPerM)
                      (mset "XPixelsPerMeter" (.n xPixelsPerM)
                        (mset "ImageSize" (.n imageSize)
                          (mset "Compression" (.n compression)
                            (mset "Planes" (.n planes) res.Additional)))))) }
            let res := { res with ColorSpace :=
              if bitsPerPixel = 1 ∨ bitsPerPixel = 4 ∨ bitsPerPixel = 8 then "Indexed"
              else if bitsPerPixel = 16 ∨ bitsPerPixel = 24 then "RGB"
              else if bitsPerPixel = 32 then "RGBA"
              else "Unknown" }
            let res :=
              match compressionName compression with
              | some name =>
                { res with Additional := mset "CompressionName" (.s name) res.Additional }
              | none => res
            .ok res
        else if dibSize = 12 then
          match goRead 8 st2 with
          | none => .err (.readFailed "failed to read DIB header")
          | some (dib, _) =>
            let width := i16 (le16 (dib.getD 0 0) (dib.getD 1 0))
            let height := i16 (le16 (dib.getD 2 0) (dib.getD 3 0))
            let planes := le16 (dib.getD 4 0) (dib.getD 5 0)
            let bitsPerPixel := le16 (dib.getD 6 0) (dib.getD 7 0)
            .ok { res with
              Width := width, Height := height, ColorDepth := bitsPerPixel,
              ColorSpace := "RGB",
              Additional := mset "Planes" (.n planes) res.Additional }
        else .err (.unsupportedDIB dibSize)

end Imx

namespace Imx

/-- **C6.** For every byte sequence beginning with one of the five
signatures — `FF D8 FF` (JPEG), the 8-byte PNG signature, `GIF87a`/`GIF89a`,
`RIFF` with `WEBP` at bytes 8–11 (at least 12 bytes), or `BM` (BMP) —
`Detect` returns the corresponding format tag (the rules are tested in that
priority order and the five full signatures are mutually exclusive, so the
first matching rule is the one named); for any other sequence of 2 to 16
bytes it returns the empty (unrecognized) tag. -/
theorem detect_signature_cases (b : List Nat) :
    (sigJPEG b → Detect b = "JPEG") ∧
    (sigPNG b → Detect b = "PNG") ∧
    (sigGIF b → Detect b = "GIF") ∧
    (sigWebP b → Detect b = "WebP") ∧
    (sigBMP b → Detect b = "BMP") ∧
    (2 ≤ b.length → b.length ≤ 16 →
      ¬ sigJPEG b → ¬ sigPNG b → ¬ sigGIF b → ¬ sigWebP b → ¬ sigBMP b →
      Detect b = "") := by
  unfold Detect sigJPEG sigPNG sigGIF sigWebP sigBMP
  refine ⟨?_, ?_, ?_, ?_, ?_, ?_⟩
  · rintro ⟨h1, h2, h3, h4⟩
    rw [if_neg (by omega), if_pos ⟨h1, h2, h3, h4⟩]
  · rintro ⟨h1, h2, h3, h4, h5, h6, h7, h8, h9⟩
    rw [if_neg (by omega), if_neg (by rintro ⟨-, e, -, -⟩; rw [h2] at e; exact absurd e (by decide)),
        if_pos ⟨h1, h2, h3, h4, h5, h6, h7, h8, h9⟩]
  · rintro ⟨h1, h2, h3, h4, h5, h6, h7⟩
    rw [if_neg (by omega), if_neg (by rintro ⟨-, e, -⟩; rw [h2] at e; exact absurd e (by decide)),
        if_neg (by rintro ⟨-, e, -⟩; rw [h2] at e; exact absurd e (by decide)),
        if_pos ⟨h1, h2, h3, h4, h5, h6, h7⟩]
  · rintro ⟨h1, h2, h3, h4, h5, h6, h7, h8, h9⟩
    rw [if_neg (by omega), if_neg (by rintro ⟨-, e, -⟩; rw [h2] at e; exact absurd e (by decide)),
        if_neg (by rintro ⟨-, e, -⟩; rw [h2] at e; exact absurd e (by decide)),
        if_neg (by rintro ⟨-, e, -⟩; rw [h2] at e; exact absurd e (by decide)),
        if_pos ⟨h1, h2, h3, h4, h5, h6, h7, h8, h9⟩]
  · rintro ⟨h1, h2, h3⟩
    rw [if_neg (by omega), if_neg (by rintro ⟨-, e, -⟩; rw [h2] at e; exact absurd e (by decide)),
        if_neg (by rintro ⟨-, e, -⟩; rw [h2] at e; exact absurd e (by decide)),
        if_neg (by rintro ⟨-, e, -⟩; rw [h2] at e; exact absurd e (by decide)),
        if_neg (by rintro ⟨-, e, -⟩; rw [h2] at e; exact absurd e (by decide)),
        if_pos ⟨h1, h2, h3⟩]
  · intro hlen _ hj hp hg hw hb
    rw [if_neg (by omega), if_neg hj, if_neg hp, if_neg hg, if_neg hw, if_neg hb]

/-- Witness for `detect_signature_cases`: instantiated at the PNG signature
itself (8 bytes), discharging the signature hypothesis concretely. -/
theorem detect_signature_cases_witness :
    sigPNG [0x89, 0x50, 0x4E, 0x47, 0x0D, 0x0A, 0x1A, 0x0A] ∧
    Detect [0x89, 0x50, 0x4E, 0x47, 0x0D, 0x0A, 0x1A, 0x0A] = "PNG" :=
  ⟨by decide,
   (detect_signature_cases [0x89, 0x50, 0x4E, 0x47, 0x0D, 0x0A, 0x1A, 0x0A]).2.1 (by decide)⟩

/-- Modelled from the claim's words, for comparison only (claim C3): a width
field decoded as a full 24-bit value packed across the three header bytes
6–8, low byte first — the reading under which all 24 bits of the third byte
group contribute. -/
def claimWidth24 (b6 b7 b8 : Nat) : Nat := b6 + 256 * b7 + 65536 * b8

/-- A VP8X WebP container whose 10-byte VP8X header carries the given flag
and dimension bytes (the dimension fields the code reads are bytes 6–9). -/
def webpVP8X (flags b5 b6 b7 b8 b9 : Nat) : List Nat :=
  [0x52, 0x49, 0x46, 0x46, 0, 0, 0, 0, 0x57, 0x45, 0x42, 0x50,
   0x56, 0x50, 0x38, 0x58,
   0x56, 0x50, 0x38, 0x58, flags, b5, b6, b7, b8, b9]

/-- **C3, counterexample.**  The claim says width is extracted "as a 24-bit
value packed across 3 header bytes" and stored plus one.  On the VP8X header
whose third width byte is `0x10` the code masks that byte to its low 4 bits,
stores width 1, while the claimed 24-bit decode plus one is 1048577. -/
theorem vp8x_width_not_24bit_counterexample :
    okWidth (ExtractWebP (webpVP8X 0 0 0 0 0x10 0)) = some 1 ∧
    (1 : Int) ≠ ((claimWidth24 0 0 0x10 : Nat) : Int) + 1 := by
  constructor
  · rfl
  · decide

/-- **C3, amended.**  For every WebP input with a VP8X chunk whose 10-byte
header passes the `VP8X` signature check, the decoder extracts the width as
a 20-bit value from header bytes 6–8 (the third byte masked to its low 4
bits: `b6 | b7<<8 | (b8 & 0x0F)<<16`) and the height as a 12-bit value from
the high 4 bits of byte 8 and byte 9 (`b8>>4 | b9<<4`), stores each decoded
value plus one as the record's width and height, sets `colorDepth` to 32
when the alpha flag bit `0x10` is set and to 24 otherwise, and sets the
record's ICC-profile flag exactly when flag bit `0x20` is set. -/
theorem vp8x_fields (flags b5 b6 b7 b8 b9 : Nat) :
    okWidth (ExtractWebP (webpVP8X flags b5 b6 b7 b8 b9)) =
      some ((b6 + 256 * b7 + 65536 * (b8 &&& 0x0F) + 1 : Nat)) ∧
    okHeight (ExtractWebP (webpVP8X flags b5 b6 b7 b8 b9)) =
      some (((b8 >>> 4) + 16 * b9 + 1 : Nat)) ∧
    okColorDepth (ExtractWebP (webpVP8X flags b5 b6 b7 b8 b9)) =
      some (if flags &&& 0x10 ≠ 0 then 32 else 24) ∧
    okICC (ExtractWebP (webpVP8X flags b5 b6 b7 b8 b9)) =
      some (decide (flags &&& 0x20 ≠ 0)) := by
  by_cases h10 : flags &&& 0x10 ≠ 0 <;> by_cases h20 : flags &&& 0x20 ≠ 0 <;>
    simp [ExtractWebP, webpVP8X, parseVP8X, goRead, readBuf, mset, mlookup,
      okWidth, okHeight, okColorDepth, okICC, h10, h20, Except.map,
      List.find?, List.any, List.map]

/-- A 54-byte BMP with a 40-byte DIB header: width 100, bits-per-pixel 24,
and the stored 32-bit height given by the four bytes `h0..h3`
(little-endian). -/
def bmpDIB40 (h0 h1 h2 h3 : Nat) : List Nat :=
  [0x42, 0x4D, 0, 0, 0, 0, 0, 0, 0, 0, 0x36, 0, 0, 0,
   0x28, 0, 0, 0, 0x64, 0, 0, 0, h0, h1, h2, h3, 1, 0, 24, 0,
   0, 0, 0, 0, 0, 0, 0, 0, 0, 0, 0, 0, 0, 0, 0, 0, 0, 0, 0, 0, 0, 0, 0, 0]

/-- A BMP whose DIB-header-size field holds the four bytes `d0..d3`. -/
def bmpBadDIB (d0 d1 d2 d3 : Nat) : List Nat :=
  [0x42, 0x4D, 0, 0, 0, 0, 0, 0, 0, 0, 0x36, 0, 0, 0, d0, d1, d2, d3]

set_option maxHeartbeats 1600000 in
/-- **C9.**  For a BMP with DIB header size at least 40, a negative stored
32-bit height yields a record height equal to its absolute value with the
`TopDown` auxiliary flag set `true`, while a non-negative height is stored
unchanged with the `TopDown` flag not set true (the code stores `false`);
the 24-bits-per-pixel header with width 100 and height 100 decodes to
width 100, height 100, colorSpace RGB; and a DIB header size that is
neither 12 nor at least 40 fails with the unsupported-DIB-header-size
error. -/
theorem bmp_height_topdown_dib (h0 h1 h2 h3 : Nat) :
    (i32 (le32 h0 h1 h2 h3) < 0 →
      okHeight (ExtractBMP (bmpDIB40 h0 h1 h2 h3)) = some (-(i32 (le32 h0 h1 h2 h3))) ∧
      okAdd "TopDown" (ExtractBMP (bmpDIB40 h0 h1 h2 h3)) = some (some (.b true))) ∧
    (0 ≤ i32 (le32 h0 h1 h2 h3) →
      okHeight (ExtractBMP (bmpDIB40 h0 h1 h2 h3)) = some (i32 (le32 h0 h1 h2 h3)) ∧
      okAdd "TopDown" (ExtractBMP (bmpDIB40 h0 h1 h2 h3)) = some (some (.b false))) ∧
    (okWidth (ExtractBMP (bmpDIB40 0x64 0 0 0)) = some 100 ∧
      okHeight (ExtractBMP (bmpDIB40 0x64 0 0 0)) = some 100 ∧
      okColorSpace (ExtractBMP (bmpDIB40 0x64 0 0 0)) = some "RGB") ∧
    (∀ d0 d1 d2 d3 : Nat, le32 d0 d1 d2 d3 < 40 → le32 d0 d1 d2 d3 ≠ 12 →
      ExtractBMP (bmpBadDIB d0 d1 d2 d3) = .err (.unsupportedDIB (le32 d0 d1 d2 d3))) := by
  refine ⟨?_, ?_, ⟨by decide, by decide, by decide⟩, ?_⟩
  · intro hneg
    constructor
    · simp [ExtractBMP, bmpDIB40, goRead, readBuf, mset, List.any, List.map, hneg]
      norm_num [le32, le16, compressionName, okHeight, okAdd, mlookup, List.find?]
    · simp [ExtractBMP, bmpDIB40, goRead, readBuf, mset, List.any, List.map, hneg]
      norm_num [le32, le16, compressionName, okHeight, okAdd, mlookup, List.find?]
      exact ⟨"TopDown", rfl⟩
  · intro hpos
    constructor
    · simp [ExtractBMP, bmpDIB40, goRead, readBuf, mset, List.any, List.map,
        not_lt_of_le hpos]
      norm_num [le32, le16, compressionName, okHeight, okAdd, mlookup, List.find?]
    · simp [ExtractBMP, bmpDIB40, goRead, readBuf, mset, List.any, List.map,
        not_lt_of_le hpos]
      norm_num [le32, le16, compressionName, okHeight, okAdd, mlookup, List.find?]
      exact ⟨"TopDown", rfl⟩
  · intro d0 d1 d2 d3 hlt hne
    simp [ExtractBMP, bmpBadDIB, goRead, readBuf,
      if_neg (Nat.not_le_of_lt (by omega : le32 d0 d1 d2 d3 < 40)), hne]

/-- Witness for `bmp_height_topdown_dib`: the stored height `-100`
(bytes `9C FF FF FF`) decodes to height 100 with `TopDown = true`, and DIB
header size 13 is rejected. -/
theorem goRead_facts {n : Nat} {st : St} {b : List Nat} {st' : St}
    (h : goRead n st = some (b, st')) :
    st'.data = st.data ∧ st.pos < st.data.length ∧ st.pos ≤ st'.pos ∧
    st'.pos ≤ st.data.length := by
  unfold goRead at h
  split at h
  · exact absurd h (by simp)
  next hlt =>
    simp only [Option.some.injEq, Prod.mk.injEq] at h
    obtain ⟨-, h2⟩ := h
    subst h2
    refine ⟨rfl, by omega, by simp, ?_⟩
    simp only
    omega

theorem goRead_facts_pos {n : Nat} {st : St} {b : List Nat} {st' : St}
    (h : goRead n st = some (b, st')) (hn : 0 < n) :
    st'.data = st.data ∧ st.pos < st.data.length ∧ st.pos < st'.pos ∧
    st'.pos ≤ st.data.length := by
  unfold goRead at h
  split at h
  · exact absurd h (by simp)
  next hlt =>
    simp only [Option.some.injEq, Prod.mk.injEq] at h
    obtain ⟨-, h2⟩ := h
    subst h2
    refine ⟨rfl, by omega, ?_, ?_⟩ <;> simp only <;> omega

theorem goReadPad_facts (n : Nat) (st : St) :
    (goReadPad n st).2.data = st.data ∧ st.pos ≤ (goReadPad n st).2.pos := by
  unfold goReadPad
  cases h : goRead n st with
  | none => exact ⟨rfl, le_refl _⟩
  | some p =>
    obtain ⟨b, st'⟩ := p
    exact ⟨(goRead_facts h).1, (goRead_facts h).2.2.1⟩

theorem pngChunks_done (fuel : Nat) :
    ∀ (st : St) (res : Result) (icc : Bool),
    st.data.length - st.pos < fuel →
    ∃ r b, pngChunks fuel st res icc = .done r b := by
  induction fuel with
  | zero => intro st res icc h; omega
  | succ fuel ih =>
    intro st res icc h
    rw [pngChunks]
    cases h1 : goRead 4 st with
    | none => exact ⟨_, _, rfl⟩
    | some p1 =>
      obtain ⟨lb, st1⟩ := p1
      obtain ⟨hd1, hlt1, hp1, hb1⟩ := goRead_facts_pos h1 (by omega)
      simp only
      cases h2 : goRead 4 st1 with
      | none => exact ⟨_, _, rfl⟩
      | some p2 =>
        obtain ⟨ctb, st2⟩ := p2
        obtain ⟨hd2, -, hp2, -⟩ := goRead_facts h2
        simp only
        by_cases hlen : 0 < pngLen lb
        · rw [if_pos hlen]
          cases h3 : goRead (pngLen lb) st2 with
          | none => exact ⟨_, _, rfl⟩
          | some p3 =>
            obtain ⟨cd, st3⟩ := p3
            obtain ⟨hd3, -, hp3, -⟩ := goRead_facts h3
            obtain ⟨hd4, hp4⟩ := goReadPad_facts 4 st3
            simp only
            by_cases hend : ctOf ctb = cIEND
            · rw [if_pos hend]; exact ⟨_, _, rfl⟩
            · rw [if_neg hend]
              exact ih _ _ _ (by rw [hd4, hd3, hd2, hd1]; omega)
        · rw [if_neg hlen]
          obtain ⟨hd4, hp4⟩ := goReadPad_facts 4 st2
          simp only
          by_cases hend : ctOf ctb = cIEND
          · rw [if_pos hend]; exact ⟨_, _, rfl⟩
          · rw [if_neg hend]
            exact ih _ _ _ (by rw [hd4, hd2, hd1]; omega)

/-- The 8-byte PNG signature alone, with no chunk after it. -/
def pngSigOnly : List Nat := [0x89, 0x50, 0x4E, 0x47, 0x0D, 0x0A, 0x1A, 0x0A]

/-- A PNG signature followed by a single complete IHDR chunk
(width 100, height 100, bit depth 8, color type 2) and its CRC — the
stream ends with no IEND chunk. -/
def pngTruncIHDR : List Nat :=
  [0x89, 0x50, 0x4E, 0x47, 0x0D, 0x0A, 0x1A, 0x0A,
   0, 0, 0, 13, 0x49, 0x48, 0x44, 0x52,
   0, 0, 0, 100, 0, 0, 0, 100, 8, 2, 0, 0, 0,
   0, 0, 0, 0]

/-- The minimal PNG test fixture: signature, IHDR (100×100, depth 8,
color type 2), IEND. -/
def pngMinimal : List Nat :=
  [0x89, 0x50, 0x4E, 0x47, 0x0D, 0x0A, 0x1A, 0x0A,
   0, 0, 0, 13, 0x49, 0x48, 0x44, 0x52,
   0, 0, 0, 100, 0, 0, 0, 100, 8, 2, 0, 0, 0,
   0, 0, 0, 0,
   0, 0, 0, 0, 0x49, 0x45, 0x4E, 0x44, 0xAE, 0x42, 0x60, 0x82]

/-- **C7.**  For every PNG input whose 8-byte signature verifies, decoding
returns successfully — the chunk loop terminates on `IEND` or on any read
failure, never with an error; a stream that ends abruptly after a valid
IHDR chunk (no IEND) still returns the IHDR's width and height; and bytes
after an IEND chunk are never read (decoding a stream with trailing bytes
equals decoding the stream without them). -/
theorem png_graceful (data : List Nat) :
    (sigPNG data → ∃ r, ExtractPNG data = .ok r) ∧
    (okWidth (ExtractPNG pngTruncIHDR) = some 100 ∧
      okHeight (ExtractPNG pngTruncIHDR) = some 100) ∧
    ExtractPNG (pngMinimal ++ [37, 37, 37, 37]) = ExtractPNG pngMinimal := by
  refine ⟨?_, ⟨by decide, by decide⟩, by decide⟩
  rintro ⟨hlen, h0, h1, h2, h3, h4, h5, h6, h7⟩
  simp only [ExtractPNG]
  rw [show goRead 8 ⟨data, 0⟩ =
      some (readBuf data 0 8, ⟨data, 0 + min 8 (data.length - 0)⟩) from by
    unfold goRead; rw [if_neg (show ¬ data.length ≤ 0 from by omega)]]
  simp only [readBuf, List.getD_cons_zero, List.getD_cons_succ, h0, h1, h2, h3,
    h4, h5, h6, h7, and_self, if_true]
  obtain ⟨r, b, hdone⟩ := pngChunks_done (data.length + 1)
    ⟨data, 0 + min 8 (data.length - 0)⟩ {} false
    (show data.length - (0 + min 8 (data.length - 0)) < data.length + 1 from by omega)
  rw [hdone]
  exact ⟨_, rfl⟩

/-- Witness for `png_graceful`: the signature-only stream satisfies the
signature hypothesis and decodes successfully. -/
theorem png_graceful_witness :
    sigPNG pngSigOnly ∧ ∃ r, ExtractPNG pngSigOnly = .ok r :=
  ⟨by decide, (png_graceful pngSigOnly).1 (by decide)⟩

/-- **C1, counterexample.**  The claim says no record with zero-and-unset
dimensions is returned without an error, naming a PNG whose stream ends
right after the 8-byte signature.  The code returns exactly such a record
successfully on that input. -/
theorem png_zero_dims_counterexample :
    okWidth (ExtractPNG pngSigOnly) = some 0 ∧
    okHeight (ExtractPNG pngSigOnly) = some 0 := by
  constructor <;> decide

theorem bmp_height_topdown_dib_witness :
    (i32 (le32 0x9C 0xFF 0xFF 0xFF) < 0 ∧
      okHeight (ExtractBMP (bmpDIB40 0x9C 0xFF 0xFF 0xFF)) = some 100 ∧
      okAdd "TopDown" (ExtractBMP (bmpDIB40 0x9C 0xFF 0xFF 0xFF)) = some (some (.b true))) ∧
    (le32 13 0 0 0 < 40 ∧ le32 13 0 0 0 ≠ 12 ∧
      ExtractBMP (bmpBadDIB 13 0 0 0) = .err (.unsupportedDIB 13)) := by
  have h := bmp_height_topdown_dib 0x9C 0xFF 0xFF 0xFF
  refine ⟨⟨by decide, ?_, (h.1 (by decide)).2⟩, by decide, by decide, ?_⟩
  · have h2 := (h.1 (by decide)).1
    rw [h2]; decide
  · have h3 := (bmp_height_topdown_dib 0 0 0 0).2.2.2 13 0 0 0 (by decide) (by decide)
    rw [h3]; decide

/-- **C5.**  The claim says the JPEG structural decoder never hits a
runtime fault.  On the input `FF D8 FF E1 00 00` (valid SOI, an APP1
marker, and a segment length field of 0) the computed payload size is
`0 - 2 = -2` and `make([]byte, -2)` panics at runtime. -/
theorem jpeg_negative_length_fault :
    ExtractJPEG [0xFF, 0xD8, 0xFF, 0xE1, 0x00, 0x00] = .fault := by
  decide

/-- A JPEG consisting of SOI, one SOF segment with marker byte `c`,
length field 15 (payload 13: the 9 bytes read plus 4 skipped via the
seek — the junk bytes `j1..j7` cover both), and EOI. -/
def jpegSOFInput (c p hh1 hh2 ww1 ww2 n j1 j2 j3 j4 j5 j6 j7 : Nat) : List Nat :=
  [0xFF, 0xD8, 0xFF, c, 0x00, 0x0F,
   p, hh1, hh2, ww1, ww2, n, j1, j2, j3, j4, j5, j6, j7,
   0xFF, 0xD9]

set_option maxHeartbeats 6400000 in
/-- **C8.**  For a JPEG containing a Start-of-Frame segment (any of the
thirteen SOF markers), the decoder reads at most the first 9 payload
bytes: it stores the precision byte times 3 as `colorDepth` and the raw
precision as `BitsPerSample`, reads big-endian height then width in that
byte order, and maps the component count 1/3/4 to
Grayscale/RGB/CMYK (anything else to Unknown); a decode with no SOF
segment defaults `colorSpace` to RGB, and every successful decode has a
non-empty color space. -/
theorem jpeg_sof_fields (c p hh1 hh2 ww1 ww2 n j1 j2 j3 j4 j5 j6 j7 : Nat)
    (hc : c ∈ sofMarkers) :
    (okWidth (ExtractJPEG (jpegSOFInput c p hh1 hh2 ww1 ww2 n j1 j2 j3 j4 j5 j6 j7)) =
      some (((be16 ww1 ww2 : Nat) : Int)) ∧
     okHeight (ExtractJPEG (jpegSOFInput c p hh1 hh2 ww1 ww2 n j1 j2 j3 j4 j5 j6 j7)) =
      some (((be16 hh1 hh2 : Nat) : Int)) ∧
     okColorDepth (ExtractJPEG (jpegSOFInput c p hh1 hh2 ww1 ww2 n j1 j2 j3 j4 j5 j6 j7)) =
      some (p * 3) ∧
     okAdd "BitsPerSample"
        (ExtractJPEG (jpegSOFInput c p hh1 hh2 ww1 ww2 n j1 j2 j3 j4 j5 j6 j7)) =
      some (some (.n p)) ∧
     okAdd "Components"
        (ExtractJPEG (jpegSOFInput c p hh1 hh2 ww1 ww2 n j1 j2 j3 j4 j5 j6 j7)) =
      some (some (.n n)) ∧
     okColorSpace (ExtractJPEG (jpegSOFInput c p hh1 hh2 ww1 ww2 n j1 j2 j3 j4 j5 j6 j7)) =
      some (if n = 1 then "Grayscale" else if n = 3 then "RGB"
            else if n = 4 then "CMYK" else "Unknown")) ∧
    okColorSpace (ExtractJPEG [0xFF, 0xD8, 0xFF, 0xD9]) = some "RGB" ∧
    (∀ data r, ExtractJPEG data = .ok r → r.ColorSpace ≠ "") := by
  refine ⟨?_, by decide, ?_⟩
  · have hne : ((if n = 1 then "Grayscale" else if n = 3 then "RGB"
        else if n = 4 then "CMYK" else "Unknown") = "") = False := by
      by_cases h1 : n = 1 <;> by_cases h3 : n = 3 <;> by_cases h4 : n = 4 <;>
        simp [h1, h3, h4]
    fin_cases hc <;>
      simp [ExtractJPEG, jpegSOFInput, jpegSegments, jpegStuffSkip, jpegHandleSOF,
        goRead, readBuf, seekCur, sofMarkers, be16, mset, mlookup, List.find?,
        List.any, List.map, okWidth, okHeight, okColorDepth, okColorSpace, okAdd,
        hne]
  · intro data r h
    simp only [ExtractJPEG] at h
    split at h
    · exact absurd h (by simp)
    · split at h
      · exact absurd h (by simp)
      · split at h
        · rw [Outcome.ok.injEq] at h
          subst h
          simp only
          split
          · exact fun hh => by simp at hh
          next hcs => exact hcs
        · exact absurd h (by simp)
        · exact absurd h (by simp)
        · exact absurd h (by simp)

/-- Witness for `jpeg_sof_fields`: the SOF0 example with precision 8,
height 100, width 100, 3 components decodes to width 100, height 100,
colorSpace RGB, colorDepth 24. -/
theorem jpeg_sof_fields_witness :
    (0xC0 ∈ sofMarkers) ∧
    okWidth (ExtractJPEG (jpegSOFInput 0xC0 8 0 100 0 100 3 0 0 0 0 0 0 0)) = some 100 ∧
    okHeight (ExtractJPEG (jpegSOFInput 0xC0 8 0 100 0 100 3 0 0 0 0 0 0 0)) = some 100 ∧
    okColorSpace (ExtractJPEG (jpegSOFInput 0xC0 8 0 100 0 100 3 0 0 0 0 0 0 0)) =
      some "RGB" ∧
    okColorDepth (ExtractJPEG (jpegSOFInput 0xC0 8 0 100 0 100 3 0 0 0 0 0 0 0)) =
      some 24 := by
  have h := jpeg_sof_fields 0xC0 8 0 100 0 100 3 0 0 0 0 0 0 0 (by decide)
  obtain ⟨⟨hw, hh, hd, -, -, hcs⟩, -, -⟩ := h
  refine ⟨by decide, ?_, ?_, ?_, ?_⟩
  · rw [hw]; decide
  · rw [hh]; decide
  · rw [hcs]; decide
  · rw [hd]

/-- The GIF stream named by the claim: `GIF89a`, a logical screen
descriptor with width 100 and height 100 (no global color table), one
image block, and the `0x3B` trailer. -/
def gifC2Input : List Nat :=
  [0x47, 0x49, 0x46, 0x38, 0x39, 0x61, 100, 0, 100, 0, 0, 0, 0,
   0x2C, 0, 0, 0, 0, 0, 0, 0, 0, 0, 0x02, 0x02, 0x44, 0x01, 0x00, 0x3B]

/-- **C2.**  The claim (and the repository's README) say a successfully
decoded GIF reports the transparency flag, animation flag and frame count
in `additional`.  On the stream that reaches the `0x3B` trailer — every
well-formed GIF — the code returns before storing them: width, height and
color space are as claimed but the three keys are absent.  (They are
stored only when the loop ends on a read failure instead.) -/
theorem gif_trailer_drops_frame_attrs :
    okWidth (ExtractGIF gifC2Input) = some 100 ∧
    okHeight (ExtractGIF gifC2Input) = some 100 ∧
    okColorSpace (ExtractGIF gifC2Input) = some "Indexed" ∧
    okAdd "FrameCount" (ExtractGIF gifC2Input) = some none ∧
    okAdd "HasAnimation" (ExtractGIF gifC2Input) = some none ∧
    okAdd "HasTransparency" (ExtractGIF gifC2Input) = some none ∧
    okAdd "FrameCount" (ExtractGIF (gifC2Input.dropLast)) =
      some (some (.n 1)) := by
  refine ⟨by decide, by decide, by decide, by decide, by decide, by decide, by decide⟩

/-- The record argument of the GIF block loop is returned unchanged on
both the trailer and the read-failure exits. -/
def gifOutRes : GifLoopOut → Option Result
  | .trailer r => some r
  | .brk r _ _ _ => some r
  | _ => none

theorem gifBlocks_preserves (fuel : Nat) :
    ∀ (st : St) (res : Result) (ht ha : Bool) (fc : Nat) (r : Result),
    gifOutRes (gifBlocks fuel st res ht ha fc) = some r → r = res := by
  induction fuel with
  | zero => intro st res ht ha fc r h; simp [gifBlocks, gifOutRes] at h
  | succ fuel ih =>
    intro st res ht ha fc r h
    rw [gifBlocks] at h
    split at h
    · simp only [gifOutRes, Option.some.injEq] at h; exact h.symm
    · split at h
      · split at h
        · simp [gifOutRes] at h
        · split at h
          · simp only [] at h
            split at h
            · exact ih _ _ _ _ _ _ h
            · exact ih _ _ _ _ _ _ h
          · split at h
            · simp only [] at h
              split at h
              · split at h
                · simp [gifOutRes] at h
                · exact ih _ _ _ _ _ _ h
              · exact ih _ _ _ _ _ _ h
            · split at h
              · simp [gifOutRes] at h
              · exact ih _ _ _ _ _ _ h
      · split at h
        · simp only [] at h
          split at h
          · simp [gifOutRes] at h
          · exact ih _ _ _ _ _ _ h
        · split at h
          · simp only [gifOutRes, Option.some.injEq] at h; exact h.symm
          · exact ih _ _ _ _ _ _ h

theorem parseVP8_dims {st : St} {res : Result} {p : Result × St}
    (h : parseVP8 st res = .ok p) : 1 ≤ p.1.Width ∧ 1 ≤ p.1.Height := by
  unfold parseVP8 at h
  split at h
  · exact absurd h (by simp)
  · split at h
    · exact absurd h (by simp)
    · rw [Except.ok.injEq] at h
      subst h
      constructor <;> simp <;> omega

theorem parseVP8L_dims {st : St} {res : Result} {p : Result × St}
    (h : parseVP8L st res = .ok p) : 1 ≤ p.1.Width ∧ 1 ≤ p.1.Height := by
  unfold parseVP8L at h
  split at h
  · exact absurd h (by simp)
  · split at h
    · exact absurd h (by simp)
    · rw [Except.ok.injEq] at h
      subst h
      constructor <;> simp <;> omega

theorem parseVP8X_dims {st : St} {res : Result} {p : Result × St}
    (h : parseVP8X st res = .ok p) : 1 ≤ p.1.Width ∧ 1 ≤ p.1.Height := by
  unfold parseVP8X at h
  split at h
  · exact absurd h (by simp)
  · split at h
    · exact absurd h (by simp)
    · simp only [] at h
      split at h <;>
        (rw [Except.ok.injEq] at h; subst h; constructor <;> simp <;> omega)

theorem extractWebP_dims (data : List Nat) (r : Result)
    (h : ExtractWebP data = .ok r) : 1 ≤ r.Width ∧ 1 ≤ r.Height := by
  simp only [ExtractWebP] at h
  split at h
  · exact absurd h (by simp)
  · split at h
    · exact absurd h (by simp)
    · split at h
      · exact absurd h (by simp)
      · split at h
        · exact absurd h (by simp)
        · split at h
          next e heq => exact absurd h (by simp)
          next res hAnim hAlpha heq =>
            rw [Outcome.ok.injEq] at h
            subst h
            simp only
            split at heq
            · cases hp : parseVP8 _ _ with
              | error e =>
                rw [hp] at heq
                exact absurd heq (by simp [Except.map])
              | ok p =>
                rw [hp] at heq
                simp only [Except.map, Except.ok.injEq, Prod.mk.injEq] at heq
                obtain ⟨hres, -, -⟩ := heq
                rw [← hres]
                exact parseVP8_dims hp
            · split at heq
              · cases hp : parseVP8L _ _ with
                | error e =>
                  rw [hp] at heq
                  exact absurd heq (by simp [Except.map])
                | ok p =>
                  rw [hp] at heq
                  simp only [Except.map, Except.ok.injEq, Prod.mk.injEq] at heq
                  obtain ⟨hres, -, -⟩ := heq
                  rw [← hres]
                  exact parseVP8L_dims hp
              · split at heq
                · cases hp : parseVP8X _ _ with
                  | error e =>
                    rw [hp] at heq
                    exact absurd heq (by simp [Except.map])
                  | ok p =>
                    rw [hp] at heq
                    simp only [Except.map, Except.ok.injEq, Prod.mk.injEq] at heq
                    obtain ⟨hres, -, -⟩ := heq
                    rw [← hres]
                    exact parseVP8X_dims hp
                · exact absurd heq (by simp)

theorem extractGIF_dims (data : List Nat) (r : Result)
    (h : ExtractGIF data = .ok r) :
    r.Width = ((le16 (data.getD 6 0) (data.getD 7 0) : Nat) : Int) ∧
    r.Height = ((le16 (data.getD 8 0) (data.getD 9 0) : Nat) : Int) := by
  simp only [ExtractGIF] at h
  split at h
  · exact absurd h (by simp)
  next sig st1 heq1 =>
    split at h
    · exact absurd h (by simp)
    next hsig =>
      split at h
      · exact absurd h (by simp)
      next lsd st2 heq2 =>
        unfold goRead at heq1
        split at heq1
        · exact absurd heq1 (by simp)
        next hne1 =>
          rw [Option.some.injEq, Prod.mk.injEq] at heq1
          obtain ⟨hsig_eq, hst1⟩ := heq1
          subst hst1
          unfold goRead at heq2
          split at heq2
          · exact absurd heq2 (by simp)
          next hne2 =>
            rw [Option.some.injEq, Prod.mk.injEq] at heq2
            obtain ⟨hlsd, hst2⟩ := heq2
            have hne2' : ¬ data.length ≤ 0 + min 6 (data.length - 0) := hne2
            have hp6 : 0 + min 6 (data.length - 0) = 6 := by omega
            rw [hp6] at hlsd
            have hl0 : lsd.getD 0 0 = data.getD 6 0 := by
              rw [← hlsd]; simp [readBuf]
            have hl1 : lsd.getD 1 0 = data.getD 7 0 := by
              rw [← hlsd]; simp [readBuf]
            have hl2 : lsd.getD 2 0 = data.getD 8 0 := by
              rw [← hlsd]; simp [readBuf]
            have hl3 : lsd.getD 3 0 = data.getD 9 0 := by
              rw [← hlsd]; simp [readBuf]
            split at h
            next r0 heq3 =>
              rw [Outcome.ok.injEq] at h
              subst h
              have hpres := gifBlocks_preserves (data.length + 1) _ _ _ _ _ r0
                (by rw [heq3]; rfl)
              rw [hpres]
              exact ⟨by rw [hl0, hl1], by rw [hl2, hl3]⟩
            next r0 ht ha fc heq3 =>
              rw [Outcome.ok.injEq] at h
              subst h
              have hpres := gifBlocks_preserves (data.length + 1) _ _ _ _ _ r0
                (by rw [heq3]; rfl)
              rw [hpres]
              exact ⟨by rw [hl0, hl1], by rw [hl2, hl3]⟩
            next e heq3 => exact absurd h (by simp)
            next heq3 => exact absurd h (by simp)

set_option maxHeartbeats 3200000 in
theorem extractBMP_dims (data : List Nat) (r : Result)
    (h : ExtractBMP data = .ok r) :
    (40 ≤ le32 (data.getD 14 0) (data.getD 15 0) (data.getD 16 0) (data.getD 17 0) ∧
     r.Width = i32 (le32 (data.getD 18 0) (data.getD 19 0) (data.getD 20 0)
        (data.getD 21 0)) ∧
     r.Height =
       (if i32 (le32 (data.getD 22 0) (data.getD 23 0) (data.getD 24 0)
            (data.getD 25 0)) < 0
        then -(i32 (le32 (data.getD 22 0) (data.getD 23 0) (data.getD 24 0)
            (data.getD 25 0)))
        else i32 (le32 (data.getD 22 0) (data.getD 23 0) (data.getD 24 0)
            (data.getD 25 0)))) ∨
    (le32 (data.getD 14 0) (data.getD 15 0) (data.getD 16 0) (data.getD 17 0) = 12 ∧
     r.Width = i16 (le16 (data.getD 18 0) (data.getD 19 0)) ∧
     r.Height = i16 (le16 (data.getD 20 0) (data.getD 21 0))) := by
  simp only [ExtractBMP] at h
  split at h
  · exact absurd h (by simp)
  next fileHeader st1 heq1 =>
    split at h
    · exact absurd h (by simp)
    next hbm =>
      split at h
      · exact absurd h (by simp)
      next dibSizeBytes st2 heq2 =>
        unfold goRead at heq1
        split at heq1
        · exact absurd heq1 (by simp)
        next hne1 =>
          rw [Option.some.injEq, Prod.mk.injEq] at heq1
          obtain ⟨hfh, hst1⟩ := heq1
          subst hst1
          unfold goRead at heq2
          split at heq2
          · exact absurd heq2 (by simp)
          next hne2 =>
            rw [Option.some.injEq, Prod.mk.injEq] at heq2
            obtain ⟨hdsb, hst2⟩ := heq2
            subst hst2
            have hne2' : ¬ data.length ≤ 0 + min 14 (data.length - 0) := hne2
            have hp14 : 0 + min 14 (data.length - 0) = 14 := by omega
            rw [hp14] at hdsb
            have hd0 : dibSizeBytes.getD 0 0 = data.getD 14 0 := by
              rw [← hdsb]; simp [readBuf]
            have hd1 : dibSizeBytes.getD 1 0 = data.getD 15 0 := by
              rw [← hdsb]; simp [readBuf]
            have hd2 : dibSizeBytes.getD 2 0 = data.getD 16 0 := by
              rw [← hdsb]; simp [readBuf]
            have hd3 : dibSizeBytes.getD 3 0 = data.getD 17 0 := by
              rw [← hdsb]; simp [readBuf]
            rw [hp14] at h
            split at h
            next h40 =>
              -- BITMAPINFOHEADER branch
              left
              refine ⟨by rw [← hd0, ← hd1, ← hd2, ← hd3]; exact h40, ?_⟩
              split at h
              · exact absurd h (by simp)
              next dib st3 heq3 =>
                unfold goRead at heq3
                split at heq3
                · exact absurd heq3 (by simp)
                next hne3 =>
                  rw [Option.some.injEq, Prod.mk.injEq] at heq3
                  obtain ⟨hdib, -⟩ := heq3
                  have hne3' :
                      ¬ data.length ≤ 14 + min 4 (data.length - 14) := hne3
                  have hp18 : 14 + min 4 (data.length - 14) = 18 := by omega
                  rw [hp18] at hdib
                  have hb : ∀ i, dib.getD i 0 = (readBuf data 18 36).getD i 0 := by
                    intro i; rw [hdib]
                  split at h
                  next name hcomp =>
                    rw [Outcome.ok.injEq] at h
                    subst h
                    constructor <;>
                      (simp only [hb]; simp [readBuf])
                  next hcomp =>
                    rw [Outcome.ok.injEq] at h
                    subst h
                    constructor <;>
                      (simp only [hb]; simp [readBuf])
            next h40 =>
              split at h
              next h12 =>
                -- BITMAPCOREHEADER branch
                right
                refine ⟨by rw [← hd0, ← hd1, ← hd2, ← hd3]; exact h12, ?_⟩
                split at h
                · exact absurd h (by simp)
                next dib st3 heq3 =>
                  unfold goRead at heq3
                  split at heq3
                  · exact absurd heq3 (by simp)
                  next hne3 =>
                    rw [Option.some.injEq, Prod.mk.injEq] at heq3
                    obtain ⟨hdib, -⟩ := heq3
                    have hne3' :
                        ¬ data.length ≤ 14 + min 4 (data.length - 14) := hne3
                    have hp18 : 14 + min 4 (data.length - 14) = 18 := by omega
                    rw [hp18] at hdib
                    have hb : ∀ i, dib.getD i 0 = (readBuf data 18 8).getD i 0 := by
                      intro i; rw [hdib]
                    rw [Outcome.ok.injEq] at h
                    subst h
                    constructor <;>
                      (simp only [hb]; simp [readBuf])
              next h12 => exact absurd h (by simp)

/-- The record a successful decode of `gifC2Input` produces. -/
def gifC2Res : Result :=
  match ExtractGIF gifC2Input with
  | .ok r => r
  | _ => {}

/-- The record a successful decode of `bmpDIB40 0x64 0 0 0` produces. -/
def bmpC1Res : Result :=
  match ExtractBMP (bmpDIB40 0x64 0 0 0) with
  | .ok r => r
  | _ => {}

/-- A WebP container with a VP8 chunk whose key-frame encodes
width-1 = 99 and height-1 = 99. -/
def webpVP8Minimal : List Nat :=
  [0x52, 0x49, 0x46, 0x46, 0, 0, 0, 0, 0x57, 0x45, 0x42, 0x50,
   0x56, 0x50, 0x38, 0x20, 0x9D, 0x01, 0x2A, 0, 0, 0, 99, 0, 99, 0]

/-- The record a successful decode of `webpVP8Minimal` produces. -/
def webpC1Res : Result :=
  match ExtractWebP webpVP8Minimal with
  | .ok r => r
  | _ => {}

/-- **C1, amended.**  The invariant holds for the three decoders whose
dimension fields live in the mandatory fixed header — GIF and BMP always
set width and height from the header bytes on success, and WebP always
stores a decoded dimension plus one (hence at least 1) — but not for PNG
and JPEG: their chunk/segment loops swallow truncation, so a PNG whose
stream ends right after the 8-byte signature and a JPEG containing SOI and
EOI but no SOF segment both decode successfully with zero-and-unset
dimensions. -/
theorem dims_from_header_or_truncated :
    (okWidth (ExtractPNG pngSigOnly) = some 0 ∧
      okHeight (ExtractPNG pngSigOnly) = some 0) ∧
    (okWidth (ExtractJPEG [0xFF, 0xD8, 0xFF, 0xD9]) = some 0 ∧
      okHeight (ExtractJPEG [0xFF, 0xD8, 0xFF, 0xD9]) = some 0) ∧
    (∀ data r, ExtractGIF data = .ok r →
      r.Width = ((le16 (data.getD 6 0) (data.getD 7 0) : Nat) : Int) ∧
      r.Height = ((le16 (data.getD 8 0) (data.getD 9 0) : Nat) : Int)) ∧
    (∀ data r, ExtractBMP data = .ok r →
      (40 ≤ le32 (data.getD 14 0) (data.getD 15 0) (data.getD 16 0) (data.getD 17 0) ∧
       r.Width = i32 (le32 (data.getD 18 0) (data.getD 19 0) (data.getD 20 0)
          (data.getD 21 0)) ∧
       r.Height =
         (if i32 (le32 (data.getD 22 0) (data.getD 23 0) (data.getD 24 0)
              (data.getD 25 0)) < 0
          then -(i32 (le32 (data.getD 22 0) (data.getD 23 0) (data.getD 24 0)
              (data.getD 25 0)))
          else i32 (le32 (data.getD 22 0) (data.getD 23 0) (data.getD 24 0)
              (data.getD 25 0)))) ∨
      (le32 (data.getD 14 0) (data.getD 15 0) (data.getD 16 0) (data.getD 17 0) = 12 ∧
       r.Width = i16 (le16 (data.getD 18 0) (data.getD 19 0)) ∧
       r.Height = i16 (le16 (data.getD 20 0) (data.getD 21 0)))) ∧
    (∀ data r, ExtractWebP data = .ok r → 1 ≤ r.Width ∧ 1 ≤ r.Height) :=
  ⟨⟨by decide, by decide⟩, ⟨by decide, by decide⟩,
   fun data r h => extractGIF_dims data r h,
   fun data r h => extractBMP_dims data r h,
   fun data r h => extractWebP_dims data r h⟩

/-- Witness for `dims_from_header_or_truncated`: the GIF, BMP and WebP
hypotheses are discharged at concrete successful decodes (the claim\'s GIF
and BMP fixtures and a VP8 WebP with dimensions 100×100). -/
theorem dims_from_header_or_truncated_witness :
    (ExtractGIF gifC2Input = .ok gifC2Res ∧ gifC2Res.Width = 100) ∧
    (ExtractBMP (bmpDIB40 0x64 0 0 0) = .ok bmpC1Res ∧ bmpC1Res.Width = 100) ∧
    (ExtractWebP webpVP8Minimal = .ok webpC1Res ∧ 1 ≤ webpC1Res.Width) := by
  refine ⟨⟨by decide, ?_⟩, ⟨by decide, ?_⟩, ⟨by decide, ?_⟩⟩
  · have h := dims_from_header_or_truncated.2.2.1 gifC2Input gifC2Res (by decide)
    rw [h.1]; decide
  · have h := dims_from_header_or_truncated.2.2.2.1 (bmpDIB40 0x64 0 0 0) bmpC1Res
      (by decide)
    rcases h with ⟨-, hw, -⟩ | ⟨-, hw, -⟩ <;> rw [hw] <;> decide
  · exact (dims_from_header_or_truncated.2.2.2.2 webpVP8Minimal webpC1Res (by decide)).1

/-- A TIFF blob whose single directory entry is the ExifIFD pointer tag
(`0x8769`, type long, count 1) with value 8 — the offset of its own
directory, a cyclic offset chain. -/
def tiffSelfLoop : List Nat :=
  [0x49, 0x49, 42, 0, 8, 0, 0, 0,
   1, 0,
   0x69, 0x87, 4, 0, 1, 0, 0, 0, 8, 0, 0, 0]

/-- **C10.**  The recursive directory parse is depth-bounded: any call at
depth greater than 10 returns the accumulated map unchanged (silent stop,
not a failure), and the blob whose ExifIFD entry points back into its own
directory terminates within the bound, producing a successful (empty,
since the pointer tag has no name) parse. -/
theorem parseIFD_depth_bounded :
    (∀ (data : List Nat) (offset : Nat) (bo : ByteOrder)
        (exif : List (String × TagValue)) (depth : Nat),
      10 < depth → parseIFD data offset bo exif depth = exif) ∧
    parseTIFF tiffSelfLoop = .ok [] := by
  constructor
  · intro data offset bo exif depth h
    rw [parseIFD, show 11 - depth = 0 from by omega]
    rfl
  · decide

/-- Witness for `parseIFD_depth_bounded`: at depth 11 the parse of any
offset into the self-looping blob is the identity on the map. -/
theorem parseIFD_depth_bounded_witness :
    10 < 11 ∧
    parseIFD tiffSelfLoop 8 .le [("Make", TagValue.null)] 11 =
      [("Make", TagValue.null)] :=
  ⟨by decide, parseIFD_depth_bounded.1 tiffSelfLoop 8 .le [("Make", TagValue.null)] 11
    (by decide)⟩

/-- A TIFF blob whose single entry has the `Make` tag (`0x010F`), ASCII
type, count 100 (so value size 100 > 4), and a value offset `0xFFFF` far
beyond the 22-byte blob. -/
def tiffOOBMake : List Nat :=
  [0x49, 0x49, 42, 0, 8, 0, 0, 0,
   1, 0,
   0x0F, 0x01, 2, 0, 100, 0, 0, 0, 0xFF, 0xFF, 0, 0]

/-- **C4, counterexample.**  The claim says a tag whose out-of-size value
offset falls outside the blob leaves no key in the EXIF mapping — "skipped
without a null placeholder".  On this blob the `Make` key is present,
mapped to the nil value the code stored. -/
theorem parseIFD_oob_null_counterexample :
    parseTIFF tiffOOBMake = .ok [("Make", TagValue.null)] ∧
    mlookup "Make" [("Make", TagValue.null)] = some TagValue.null := by
  exact ⟨by decide, by decide⟩

/-- **C4, amended.**  For every directory entry whose value size exceeds 4
bytes and whose 4-byte offset field designates a range not fully contained
in the blob, the value is not decoded but the entry is still recorded: a
recognized tag's name is mapped to a null placeholder, and the parse of
the remaining entries continues unaffected (the `ExifIFD` recursion also
cannot fire, since it requires an in-place value) — for any directory
recursion callback `recurse`, in particular the one `parseIFD` uses. -/
theorem parseIFD_oob_stores_null
    (recurse : Nat → List (String × TagValue) → List (String × TagValue))
    (data : List Nat) (offset : Nat) (bo : ByteOrder)
    (exif : List (String × TagValue)) (n : Nat)
    (hin : offset + 12 ≤ data.length)
    (hsize : 4 < getDataTypeSize (u16At bo data (offset + 2)) * u32At bo data (offset + 4))
    (hoob : ¬ (u32At bo data (offset + 8) < data.length ∧
      u32At bo data (offset + 8) +
        getDataTypeSize (u16At bo data (offset + 2)) * u32At bo data (offset + 4) ≤
        data.length)) :
    parseEntriesAux recurse data offset bo exif (n + 1) =
      parseEntriesAux recurse data (offset + 12) bo
        (if getEXIFTagName (u16At bo data offset) ≠ "" then
          mset (getEXIFTagName (u16At bo data offset)) .null exif
        else exif) n ∧
    (getEXIFTagName (u16At bo data offset) ≠ "" →
      mlookup (getEXIFTagName (u16At bo data offset))
        (mset (getEXIFTagName (u16At bo data offset)) .null exif) = some .null) := by
  constructor
  · have hs : ¬ (getDataTypeSize (u16At bo data (offset + 2)) *
        u32At bo data (offset + 4) ≤ 4) := by omega
    have hrec : ¬ (u16At bo data offset = exifTagExifIFD ∧
        getDataTypeSize (u16At bo data (offset + 2)) * u32At bo data (offset + 4) ≤ 4 ∧
        u32At bo data (offset + 8) < data.length) := by
      rintro ⟨-, h4, -⟩; omega
    conv_lhs => rw [parseEntriesAux.eq_def]
    simp only [if_neg (by omega : ¬ (data.length < offset + 12)), if_neg hs,
      if_neg hoob, if_neg hrec]
  · intro _
    exact mlookup_mset_self _ _ _

/-- Witness for `parseIFD_oob_stores_null`: the single out-of-range `Make`
entry of `tiffOOBMake` (tag at offset 10, value size 100, value offset
65535) is stored as a null placeholder and the entry loop continues at
offset 22, instantiated with the depth-1 recursion callback `parseIFD`
itself uses. -/
theorem parseIFD_oob_stores_null_witness :
    (10 + 12 ≤ tiffOOBMake.length ∧
      4 < getDataTypeSize (u16At .le tiffOOBMake 12) * u32At .le tiffOOBMake 14 ∧
      ¬ (u32At .le tiffOOBMake 18 < tiffOOBMake.length ∧
        u32At .le tiffOOBMake 18 +
          getDataTypeSize (u16At .le tiffOOBMake 12) * u32At .le tiffOOBMake 14 ≤
          tiffOOBMake.length)) ∧
    parseEntriesAux (fun off ex => parseIFDAux 10 tiffOOBMake off .le ex 1)
        tiffOOBMake 10 .le [] 1 =
      parseEntriesAux (fun off ex => parseIFDAux 10 tiffOOBMake off .le ex 1)
        tiffOOBMake 22 .le [("Make", TagValue.null)] 0 ∧
    mlookup "Make" (mset "Make" TagValue.null []) = some TagValue.null := by
  have h := parseIFD_oob_stores_null
    (fun off ex => parseIFDAux 10 tiffOOBMake off .le ex 1)
    tiffOOBMake 10 .le [] 0 (by decide) (by decide) (by decide)
  refine ⟨⟨by decide, by decide, by decide⟩, ?_, h.2 (by decide)⟩
  rw [h.1]
  decide

end Imx
